import Mathlib

/-!
# Verification of the UrbanismoVerde analysis pipeline

A shallow embedding, in Lean 4, of the computational core of the
UrbanismoVerde green-roof analysis service, together with theorems that
settle the specification's claims against the code.

Conventions of the embedding:
* Python floats are modelled as exact rationals (`ℚ`); the geometric
  functions that use trigonometry (`haversine_distance`,
  `calculate_area_haversine`, `calculate_perimeter`) are modelled over `ℝ`.
* `round(x, n)` is Python's round-half-to-even, modelled by `pyRound`.
* `int(x)` is truncation toward zero, modelled by `pyInt`.
* `random.Random(seed).uniform(a, b)` draws `a + (b-a)·u` with a unit
  draw `u ∈ [0,1)`; each seeded generator is a deterministic stream of
  unit draws, so a function consuming the generator is modelled as a
  function of the stream `draw : ℕ → ℚ` (the i-th unit draw).
* Python dict `.get(key, default)` on the string-keyed coefficient tables
  is modelled by if-chains over `String`; `.get` on optional request
  fields is modelled by `Option.getD`.
* Free-text fields of the report (recommendation strings, tags) and
  fields never read by any claim are omitted from the modelled records.
-/

set_option linter.unusedVariables false

/-- Round a rational to the nearest integer, ties to even
(the rounding used by Python's built-in `round`). -/
def rhe (q : ℚ) : ℤ :=
  if Int.fract q < 1/2 then ⌊q⌋
  else if 1/2 < Int.fract q then ⌊q⌋ + 1
  else if Even ⌊q⌋ then ⌊q⌋ else ⌊q⌋ + 1

/-- Python's `round(q, n)`: round-half-to-even at `n` decimal digits. -/
def pyRound (q : ℚ) (n : ℕ) : ℚ :=
  (rhe (q * 10 ^ n) : ℚ) / 10 ^ n

/-- Python's `int(q)`: truncation toward zero. -/
def pyInt (q : ℚ) : ℤ :=
  if 0 ≤ q then ⌊q⌋ else ⌈q⌉

/-- `random.Random.uniform(a, b)` in terms of the unit draw `u`. -/
def pyUniform (a b u : ℚ) : ℚ := a + (b - a) * u

theorem rhe_le_add_one (q : ℚ) : rhe q ≤ ⌊q⌋ + 1 := by
  unfold rhe
  split_ifs <;> omega

theorem le_rhe (q : ℚ) : ⌊q⌋ ≤ rhe q := by
  unfold rhe
  split_ifs <;> omega

theorem rhe_mono {q r : ℚ} (h : q ≤ r) : rhe q ≤ rhe r := by
  rcases lt_or_eq_of_le (Int.floor_le_floor h) with hf | hf
  · calc rhe q ≤ ⌊q⌋ + 1 := rhe_le_add_one q
      _ ≤ ⌊r⌋ := by omega
      _ ≤ rhe r := le_rhe r
  · have hfr : Int.fract q ≤ Int.fract r := by
      unfold Int.fract
      rw [hf] at *
      linarith
    unfold rhe
    rw [hf]
    split_ifs <;> first | omega | linarith

theorem abs_rhe_sub_le (q : ℚ) : |(rhe q : ℚ) - q| ≤ 1/2 := by
  have h0 : (⌊q⌋ : ℚ) = q - Int.fract q := by
    unfold Int.fract; ring
  have hf0 : 0 ≤ Int.fract q := Int.fract_nonneg q
  have hf1 : Int.fract q < 1 := Int.fract_lt_one q
  unfold rhe
  split_ifs with h1 h2 h3
  · rw [abs_le]; constructor <;> [skip; skip] <;> rw [h0] <;> linarith
  · push_cast
    rw [abs_le]; constructor <;> rw [h0] <;> linarith
  · rw [abs_le]
    have : Int.fract q = 1/2 := by linarith
    constructor <;> rw [h0, this] <;> linarith
  · push_cast
    rw [abs_le]
    have : Int.fract q = 1/2 := by linarith
    constructor <;> rw [h0, this] <;> linarith

theorem pyRound_mono {q r : ℚ} (n : ℕ) (h : q ≤ r) :
    pyRound q n ≤ pyRound r n := by
  unfold pyRound
  have hp : (0:ℚ) < 10 ^ n := by positivity
  have := rhe_mono (show q * 10 ^ n ≤ r * 10 ^ n by nlinarith)
  have hc : (rhe (q * 10 ^ n) : ℚ) ≤ (rhe (r * 10 ^ n) : ℚ) := by exact_mod_cast this
  gcongr

theorem abs_pyRound_sub_le (q : ℚ) (n : ℕ) :
    |pyRound q n - q| ≤ 1 / (2 * 10 ^ n) := by
  unfold pyRound
  have hp : (0:ℚ) < 10 ^ n := by positivity
  have h := abs_rhe_sub_le (q * 10 ^ n)
  have hrw : (rhe (q * 10 ^ n) : ℚ) / 10 ^ n - q
      = ((rhe (q * 10 ^ n) : ℚ) - q * 10 ^ n) / 10 ^ n := by
    field_simp
    ring
  rw [hrw, abs_div, abs_of_pos hp, div_le_div_iff₀ hp (by positivity)]
  calc |(rhe (q * 10 ^ n) : ℚ) - q * 10 ^ n| * (2 * 10 ^ n)
      ≤ (1/2) * (2 * 10 ^ n) := by nlinarith [abs_nonneg ((rhe (q * 10 ^ n) : ℚ) - q * 10 ^ n)]
    _ = 1 * 10 ^ n := by ring

theorem pyRound_nonneg {q : ℚ} (n : ℕ) (h : 0 ≤ q) : 0 ≤ pyRound q n := by
  have h0 : pyRound 0 n = 0 := by
    unfold pyRound rhe
    norm_num [Int.fract]
  calc (0:ℚ) = pyRound 0 n := h0.symm
    _ ≤ pyRound q n := pyRound_mono n h

/-! ## Subsidy zones (src/api/utils/subsidy_zones.py) -/

/-- Bounding box of a subsidy zone (`bounds` dict). -/
structure Bounds where
  min_lat : ℚ
  max_lat : ℚ
  min_lon : ℚ
  max_lon : ℚ
deriving DecidableEq, Inhabited

/-- One entry of `ZONAS_SUBVENCION`. -/
structure Zona where
  nombre : String
  porcentaje : ℕ
  programa : String
  bounds : Bounds
  requisitos : List String
deriving DecidableEq, Inhabited

/-- `ZONAS_SUBVENCION`: the four Madrid zones, in dict insertion order
(the order `check_subsidy_eligibility` iterates them in). -/
def ZONAS_SUBVENCION : List Zona :=
  [ { nombre := "Centro Histórico Madrid"
    , porcentaje := 80
    , programa := "PECV Madrid 2025 + Fondos Next Generation"
    , bounds := { min_lat := 40.405, max_lat := 40.430
                , min_lon := -3.720, max_lon := -3.690 }
    , requisitos := ["Factor Verde ≥ 0.6", "Mínimo 60% especies nativas",
                     "Proyecto técnico visado", "Licencia municipal"] }
  , { nombre := "Ensanche y Barrios Centrales"
    , porcentaje := 60
    , programa := "PECV Madrid 2025"
    , bounds := { min_lat := 40.395, max_lat := 40.440
                , min_lon := -3.730, max_lon := -3.680 }
    , requisitos := ["Factor Verde ≥ 0.6", "Especies nativas recomendadas",
                     "Proyecto técnico"] }
  , { nombre := "Barrios Periféricos"
    , porcentaje := 50
    , programa := "Comunidad de Madrid"
    , bounds := { min_lat := 40.350, max_lat := 40.480
                , min_lon := -3.800, max_lon := -3.600 }
    , requisitos := ["Factor Verde ≥ 0.6", "Superficie mínima 50 m²"] }
  , { nombre := "Área Metropolitana"
    , porcentaje := 40
    , programa := "Comunidad de Madrid"
    , bounds := { min_lat := 40.300, max_lat := 40.550
                , min_lon := -3.900, max_lon := -3.500 }
    , requisitos := ["Superficie mínima 100 m²", "Certificación energética"] } ]

/-- `point_in_bounds(lat, lon, bounds)`. -/
def point_in_bounds (lat lon : ℚ) (b : Bounds) : Bool :=
  decide (b.min_lat ≤ lat ∧ lat ≤ b.max_lat ∧ b.min_lon ≤ lon ∧ lon ≤ b.max_lon)

/-- Result dict of `check_subsidy_eligibility`. -/
structure SubsidyInfo where
  elegible : Bool
  porcentaje : ℕ
  zona : String
  programa : String
  requisitos : List String
deriving DecidableEq

/-- `check_subsidy_eligibility(lat, lon)`: first matching zone wins
(the `for`/`break` loop is `List.find?`). -/
def check_subsidy_eligibility (lat lon : ℚ) : SubsidyInfo :=
  match ZONAS_SUBVENCION.find? (fun z => point_in_bounds lat lon z.bounds) with
  | some z =>
      { elegible := true, porcentaje := z.porcentaje, zona := z.nombre
      , programa := z.programa, requisitos := z.requisitos }
  | none =>
      { elegible := false, porcentaje := 0, zona := "Fuera de zonas prioritarias"
      , programa := "No aplica", requisitos := [] }

/-- Result dict of `calculate_subsidy_amount` (tope omitted from the record,
it is echoed back unchanged). -/
structure SubsidyCalc where
  coste_total_eur : ℚ
  porcentaje_subvencion : ℕ
  monto_subvencion_eur : ℚ
  inversion_neta_eur : ℚ
  aplicado_tope : Bool
deriving DecidableEq

/-- `calculate_subsidy_amount(coste_total, porcentaje, tope_maximo)`.
`if tope_maximo and monto > tope_maximo` is Python truthiness: a `None`
or zero cap never applies. -/
def calculate_subsidy_amount (coste_total : ℚ) (porcentaje : ℕ)
    (tope_maximo : Option ℚ) : SubsidyCalc :=
  let monto₀ := coste_total * ((porcentaje : ℚ) / 100)
  let aplica := match tope_maximo with
    | some t => decide (t ≠ 0 ∧ t < monto₀)
    | none => false
  let monto := match tope_maximo with
    | some t => if t ≠ 0 ∧ t < monto₀ then t else monto₀
    | none => monto₀
  { coste_total_eur := pyRound coste_total 2
  , porcentaje_subvencion := porcentaje
  , monto_subvencion_eur := pyRound monto 2
  , inversion_neta_eur := pyRound (coste_total - monto) 2
  , aplicado_tope := aplica }

/-! ## Factor Verde, PECV Madrid 2025 (src/api/analyze.py) -/

/-- `COEF_TIPO_CUBIERTA.get(tipo_cubierta, 0.75)`. -/
def coefTipoCubierta (s : String) : ℚ :=
  if s = "extensiva" then 0.75
  else if s = "intensiva" then 1.0
  else if s = "semi_intensiva" then 0.85
  else 0.75

/-- `COEF_ORIENTACION.get(orientacion, 0.85)`. -/
def coefOrientacion (s : String) : ℚ :=
  if s = "sur" then 1.0
  else if s = "sureste" then 0.95
  else if s = "suroeste" then 0.95
  else if s = "este" then 0.85
  else if s = "oeste" then 0.85
  else if s = "norte" then 0.7
  else if s = "noreste" then 0.75
  else if s = "noroeste" then 0.75
  else 0.85

/-- `COEF_INFRAESTRUCTURA.get(tipo_infraestructura, 0.6)`. -/
def coefInfraestructura (s : String) : ℚ :=
  if s = "cubierta_vegetal_extensiva" then 0.6
  else if s = "cubierta_vegetal_intensiva" then 1.0
  else if s = "jardin_vertical" then 0.4
  else if s = "arbolado_aislado" then 0.8
  else if s = "vegetacion_tapizante" then 0.5
  else if s = "arbustos" then 0.7
  else if s = "pradera" then 0.5
  else 0.6

theorem coefTipoCubierta_pos (s : String) : 0 < coefTipoCubierta s := by
  unfold coefTipoCubierta
  split_ifs <;> norm_num

theorem coefOrientacion_pos (s : String) : 0 < coefOrientacion s := by
  unfold coefOrientacion
  split_ifs <;> norm_num

theorem coefInfraestructura_pos (s : String) : 0 < coefInfraestructura s := by
  unfold coefInfraestructura
  split_ifs <;> norm_num

/-- Result dict of `calculate_factor_verde` (the `coeficientes` sub-dict is
flattened into `ct`/`co`/`ci`). -/
structure FactorVerdeResult where
  factor_verde : ℚ
  cumple_extensiva : Bool
  cumple_intensiva : Bool
  ct : ℚ
  co : ℚ
  ci : ℚ
  tipo_cubierta_recomendado : String
deriving DecidableEq

/-- `calculate_factor_verde(area_total_m2, area_verde_m2, tipo_cubierta,
orientacion, tipo_infraestructura)`.  The compliance booleans compare the
unrounded factor against `REQUISITOS_MINIMOS` (0.6 extensive / 0.8
intensive); the returned `factor_verde` is rounded to 3 decimals. -/
def calculate_factor_verde (area_total_m2 area_verde_m2 : ℚ)
    (tipo_cubierta orientacion tipo_infraestructura : String) :
    FactorVerdeResult :=
  let ct := coefTipoCubierta tipo_cubierta
  let co := coefOrientacion orientacion
  let ci := coefInfraestructura tipo_infraestructura
  let suma_ci_si := ci * area_verde_m2
  let factor_verde := if area_total_m2 > 0 then (ct * co * suma_ci_si) / area_total_m2 else 0
  let cumple_extensiva := decide (factor_verde ≥ 0.6)
  let cumple_intensiva := decide (factor_verde ≥ 0.8)
  { factor_verde := pyRound factor_verde 3
  , cumple_extensiva := cumple_extensiva
  , cumple_intensiva := cumple_intensiva
  , ct := ct, co := co, ci := ci
  , tipo_cubierta_recomendado := if cumple_intensiva then "intensiva" else "extensiva" }

/-- Result dict of `validate_requirements`. -/
structure Requisitos where
  superficie_min_50m2 : Bool
  inclinacion_max_30 : Bool
  factor_verde_minimo : Bool
  especies_nativas_60_pct : Bool
  cumple_todos : Bool
deriving DecidableEq

/-- `validate_requirements(area_m2, inclinacion_grados, factor_verde,
especies_nativas_pct, tipo_cubierta)`. -/
def validate_requirements (area_m2 inclinacion_grados factor_verde
    especies_nativas_pct : ℚ) (tipo_cubierta : String) : Requisitos :=
  let fv_min : ℚ := if tipo_cubierta = "intensiva" then 0.8 else 0.6
  { superficie_min_50m2 := decide (area_m2 ≥ 50)
  , inclinacion_max_30 := decide (inclinacion_grados ≤ 30)
  , factor_verde_minimo := decide (factor_verde ≥ fv_min)
  , especies_nativas_60_pct := decide (especies_nativas_pct ≥ 60)
  , cumple_todos := decide (area_m2 ≥ 50 ∧ inclinacion_grados ≤ 30 ∧
      factor_verde ≥ fv_min ∧ especies_nativas_pct ≥ 60) }

/-- `get_orientation_from_solar_hours(horas_sol_anuales)`. -/
def get_orientation_from_solar_hours (horas_sol_anuales : ℚ) : String :=
  if horas_sol_anuales ≥ 2400 then "sur"
  else if horas_sol_anuales ≥ 2200 then "sureste"
  else if horas_sol_anuales ≥ 2000 then "este"
  else if horas_sol_anuales ≥ 1800 then "oeste"
  else "norte"

/-! ## Computer-vision simulation (src/api/analyze.py) -/

/-- The four raw `rng.uniform` draws of `segment_surfaces`, before
normalization, as functions of the generator's unit-draw stream. -/
def seg_asfalto_raw (draw : ℕ → ℚ) : ℚ := pyUniform 0.25 0.35 (draw 0)

def seg_grava_raw (draw : ℕ → ℚ) : ℚ := pyUniform 0.45 0.55 (draw 1)

def seg_vegetacion_raw (draw : ℕ → ℚ) : ℚ := pyUniform 0.05 0.15 (draw 2)

def seg_obstaculos_raw (draw : ℕ → ℚ) : ℚ := pyUniform 0.08 0.12 (draw 3)

/-- `total_pct` in `segment_surfaces`. -/
def seg_total (draw : ℕ → ℚ) : ℚ :=
  seg_asfalto_raw draw + seg_grava_raw draw + seg_vegetacion_raw draw +
    seg_obstaculos_raw draw

/-- `obstaculos_m2` before rounding: `area_m2 * (obstaculos_pct / total_pct)`. -/
def seg_obstaculos_pre (area_m2 : ℚ) (draw : ℕ → ℚ) : ℚ :=
  area_m2 * (seg_obstaculos_raw draw / seg_total draw)

/-- `area_util_m2` before rounding: `area_m2 - obstaculos_m2`. -/
def seg_area_util_pre (area_m2 : ℚ) (draw : ℕ → ℚ) : ℚ :=
  area_m2 - seg_obstaculos_pre area_m2 draw

/-- Result dict of `segment_surfaces`. -/
structure SurfaceSegmentation where
  asfalto_m2 : ℚ
  grava_m2 : ℚ
  vegetacion_previa_m2 : ℚ
  obstaculos_m2 : ℚ
  area_util_m2 : ℚ
  area_util_pct : ℚ
deriving DecidableEq

/-- `segment_surfaces(area_m2, seed)`: the four drawn percentages are
normalized by their sum and multiplied by the area; every reported field
is rounded (2 decimals for areas, 1 for the percentage). -/
def segment_surfaces (area_m2 : ℚ) (draw : ℕ → ℚ) : SurfaceSegmentation :=
  let total := seg_total draw
  let asfalto_m2 := area_m2 * (seg_asfalto_raw draw / total)
  let grava_m2 := area_m2 * (seg_grava_raw draw / total)
  let vegetacion_previa_m2 := area_m2 * (seg_vegetacion_raw draw / total)
  let obstaculos_m2 := seg_obstaculos_pre area_m2 draw
  let area_util_m2 := seg_area_util_pre area_m2 draw
  { asfalto_m2 := pyRound asfalto_m2 2
  , grava_m2 := pyRound grava_m2 2
  , vegetacion_previa_m2 := pyRound vegetacion_previa_m2 2
  , obstaculos_m2 := pyRound obstaculos_m2 2
  , area_util_m2 := pyRound area_util_m2 2
  , area_util_pct := if area_m2 > 0 then pyRound (area_util_m2 / area_m2 * 100) 1 else 0 }

/-- Result dict of `analyze_solar_exposure`. -/
structure SolarExposure where
  horas_sol_anuales : ℤ
  clasificacion : String
  factor_sombra : ℚ
  radiacion_estimada_kwh_m2_ano : ℚ
deriving DecidableEq

/-- `analyze_solar_exposure(lat, lon, area_m2, seed)`: latitude band picks
the base hours, a shadow factor drawn from `uniform(0.75, 0.95)` scales
them, and the fixed thresholds (≥2200 / ≥1800) classify the result. -/
def analyze_solar_exposure (lat lon area_m2 : ℚ) (draw : ℕ → ℚ) : SolarExposure :=
  let base_hours : ℚ := if lat ≥ 41.5 then 2200 else if lat ≥ 39.5 then 2400 else 2600
  let shadow_factor := pyUniform 0.75 0.95 (draw 0)
  let horas := pyInt (base_hours * shadow_factor)
  { horas_sol_anuales := horas
  , clasificacion :=
      if horas ≥ 2200 then "SOL_DIRECTO" else if horas ≥ 1800 then "MIXTA" else "SOMBRA"
  , factor_sombra := pyRound shadow_factor 2
  , radiacion_estimada_kwh_m2_ano := pyRound ((horas : ℚ) * 0.8) 0 }

/-- `calculate_ndvi(area_m2, vegetacion_previa_m2)`. -/
def calculate_ndvi (area_m2 vegetacion_previa_m2 : ℚ) : ℚ :=
  if area_m2 ≤ 0 then 0
  else
    let veg_pct := if area_m2 > 0 then vegetacion_previa_m2 / area_m2 else 0
    let ndvi := max (-1) (min 1 (0.10 + veg_pct * 0.3))
    pyRound ndvi 2

/-! ## Species catalog and plant quantities (src/api/analyze.py) -/

/-- One species record of the `ESPECIES` catalog in `analyze.py`.  Only the
fields the modelled pipeline reads are kept (descriptive text fields such
as `clima`, `floracion` or `mantenimiento` are never consumed). -/
structure EspecieA where
  nombre_comun : String
  nativa_iberia : Bool
  requisitos_sol : String
  requisitos_agua : String
  densidad_m2 : ℚ
  coste_unidad_eur : ℚ
deriving DecidableEq

def lavanda : EspecieA :=
  { nombre_comun := "Lavanda", nativa_iberia := true, requisitos_sol := "pleno"
  , requisitos_agua := "bajo", densidad_m2 := 9, coste_unidad_eur := 3.50 }

def romero : EspecieA :=
  { nombre_comun := "Romero", nativa_iberia := true, requisitos_sol := "pleno"
  , requisitos_agua := "bajo", densidad_m2 := 4, coste_unidad_eur := 3.50 }

def tomillo : EspecieA :=
  { nombre_comun := "Tomillo", nativa_iberia := true, requisitos_sol := "pleno"
  , requisitos_agua := "bajo", densidad_m2 := 16, coste_unidad_eur := 3.50 }

def santolina : EspecieA :=
  { nombre_comun := "Santolina", nativa_iberia := true, requisitos_sol := "pleno"
  , requisitos_agua := "bajo", densidad_m2 := 6, coste_unidad_eur := 3.50 }

def sedumDeRoca : EspecieA :=
  { nombre_comun := "Sedum de roca", nativa_iberia := true, requisitos_sol := "pleno"
  , requisitos_agua := "muy_bajo", densidad_m2 := 25, coste_unidad_eur := 2.50 }

def sedumBlancoA : EspecieA :=
  { nombre_comun := "Sedum blanco", nativa_iberia := true, requisitos_sol := "pleno"
  , requisitos_agua := "muy_bajo", densidad_m2 := 25, coste_unidad_eur := 2.50 }

def helechoComun : EspecieA :=
  { nombre_comun := "Helecho común", nativa_iberia := true, requisitos_sol := "sombra"
  , requisitos_agua := "medio", densidad_m2 := 6, coste_unidad_eur := 4.00 }

def hiedraA : EspecieA :=
  { nombre_comun := "Hiedra", nativa_iberia := true, requisitos_sol := "media_sombra"
  , requisitos_agua := "bajo", densidad_m2 := 4, coste_unidad_eur := 3.00 }

def vincapervinca : EspecieA :=
  { nombre_comun := "Vincapervinca", nativa_iberia := true, requisitos_sol := "media_sombra"
  , requisitos_agua := "bajo", densidad_m2 := 9, coste_unidad_eur := 3.00 }

/-- `ESPECIES['aromaticas']`. -/
def especiesAromaticas : List EspecieA := [lavanda, romero, tomillo, santolina]

/-- `ESPECIES['suculentas']`. -/
def especiesSuculentas : List EspecieA := [sedumDeRoca, sedumBlancoA]

/-- `ESPECIES['sombra']`. -/
def especiesSombra : List EspecieA := [helechoComun, hiedraA, vincapervinca]

/-- A species as produced by `get_species_by_exposure`: a copy of the
catalog record plus its assigned `viabilidad` (the `razon` string is not
modelled). -/
structure RecEspecie where
  especie : EspecieA
  viabilidad : ℚ
deriving DecidableEq

/-- `get_species_by_exposure(clasificacion_solar, max_especies)`. -/
def get_species_by_exposure (clasificacion_solar : String) (max_especies : ℕ) :
    List RecEspecie :=
  let pair : List EspecieA × List ℚ :=
    if clasificacion_solar = "SOL_DIRECTO" then
      (especiesAromaticas.take 3 ++ especiesSuculentas.take 1, [0.95, 0.92, 0.90, 0.88])
    else if clasificacion_solar = "SOMBRA" then
      (especiesSombra, [0.85, 0.82, 0.80])
    else
      (especiesAromaticas.take 2 ++ especiesSombra.take 2, [0.88, 0.85, 0.83, 0.80])
  ((pair.1.take max_especies).enum).map fun ie =>
    { especie := ie.2, viabilidad := pair.2.getD ie.1 0.75 }

/-- A species with plant quantity and total plant cost attached
(`calculate_plant_quantities` output element). -/
structure PlantSel where
  especie : EspecieA
  viabilidad : ℚ
  cantidad_estimada : ℤ
  coste_total_eur : ℚ
deriving DecidableEq

/-- `calculate_plant_quantities(area_util_m2, especies)`. -/
def calculate_plant_quantities (area_util_m2 : ℚ) (especies : List RecEspecie) :
    List PlantSel :=
  especies.map fun r =>
    let cantidad := pyInt (area_util_m2 * r.especie.densidad_m2)
    { especie := r.especie
    , viabilidad := r.viabilidad
    , cantidad_estimada := cantidad
    , coste_total_eur := pyRound ((cantidad : ℚ) * r.especie.coste_unidad_eur) 2 }

/-- `get_species_by_exposure` always returns exactly
`min max_especies 3` or `min max_especies 4` entries; in particular with
`max_especies = 3` the list always has 3 entries, whatever the
classification string is. -/
theorem get_species_by_exposure_length (clasificacion_solar : String) :
    (get_species_by_exposure clasificacion_solar 3).length = 3 := by
  unfold get_species_by_exposure
  split_ifs <;> rfl

/-- `get_native_species_percentage(especies)`. -/
def get_native_species_percentage (especies : List RecEspecie) : ℚ :=
  if especies.isEmpty then 0
  else ((especies.filter fun r => r.especie.nativa_iberia).length : ℚ) /
        (especies.length : ℚ) * 100

/-! ## Budget, Madrid 2024 market costs (src/api/analyze.py) -/

/-- Result dict of `calculate_budget`; the `desglose` sub-dict is flattened
into the eight `*_eur` line items. -/
structure Budget where
  coste_total_inicial_eur : ℚ
  sustrato_eur : ℚ
  drenaje_eur : ℚ
  membrana_impermeable_eur : ℚ
  lamina_antiraices_eur : ℚ
  geotextil_eur : ℚ
  plantas_eur : ℚ
  instalacion_eur : ℚ
  riego_eur : ℚ
  mantenimiento_anual_eur : ℚ
  coste_por_m2_eur : ℚ
  vida_util_anos : ℕ
deriving DecidableEq

/-- The unrounded irrigation line of `calculate_budget`:
`area*15 + 250 + 80*max(1, int(area_m2/100))` when irrigation is included. -/
def budget_riego_pre (area_m2 : ℚ) (incluir_riego : Bool) : ℚ :=
  if incluir_riego then
    area_m2 * 15 + 250 + 80 * (max 1 (pyInt (area_m2 / 100)) : ℚ)
  else 0

/-- The unrounded total of `calculate_budget`: substrate + drainage +
membrane + root barrier + geotextile + plants + installation + irrigation.
`coste_plantas` is the sum of the (already rounded) `coste_total_eur`
values of the supplied species list, so the species list is modelled by
that list of cost values. -/
def budget_total_pre (area_m2 : ℚ) (costes_plantas : List ℚ)
    (incluir_riego : Bool) : ℚ :=
  area_m2 * 45 + area_m2 * 25 + area_m2 * 15 + area_m2 * 8 + area_m2 * 5 +
    costes_plantas.sum + area_m2 * 20 + budget_riego_pre area_m2 incluir_riego

/-- `calculate_budget(area_m2, especies_list, incluir_riego)`. -/
def calculate_budget (area_m2 : ℚ) (costes_plantas : List ℚ)
    (incluir_riego : Bool) : Budget :=
  let coste_plantas := costes_plantas.sum
  let riego := budget_riego_pre area_m2 incluir_riego
  let coste_total_inicial := budget_total_pre area_m2 costes_plantas incluir_riego
  { coste_total_inicial_eur := pyRound coste_total_inicial 2
  , sustrato_eur := pyRound (area_m2 * 45) 2
  , drenaje_eur := pyRound (area_m2 * 25) 2
  , membrana_impermeable_eur := pyRound (area_m2 * 15) 2
  , lamina_antiraices_eur := pyRound (area_m2 * 8) 2
  , geotextil_eur := pyRound (area_m2 * 5) 2
  , plantas_eur := pyRound coste_plantas 2
  , instalacion_eur := pyRound (area_m2 * 20) 2
  , riego_eur := if incluir_riego then pyRound riego 2 else 0
  , mantenimiento_anual_eur := pyRound (area_m2 * 8) 2
  , coste_por_m2_eur := if area_m2 > 0 then pyRound (coste_total_inicial / area_m2) 2 else 0
  , vida_util_anos := 25 }

/-! ## IDAE energy savings and MITECO ecosystem benefits (src/api/analyze.py) -/

/-- Result dict of `calculate_energy_savings` (the `desglose` and
percentage echo fields are not consumed by the pipeline and are omitted). -/
structure EnergySavings where
  ahorro_energia_kwh_anual : ℚ
  ahorro_energia_eur_anual : ℚ
deriving DecidableEq

/-- `calculate_energy_savings(area_m2, tipo_cubierta)`: cooling 30 kWh/m²
and heating 50 kWh/m² base consumption, reduced by the percentage table
(`extensiva` 0.35/0.15, `intensiva` 0.50/0.30, unknown keys fall back to
`extensiva`), priced at 0.25 €/kWh. -/
def calculate_energy_savings (area_m2 : ℚ) (tipo_cubierta : String) :
    EnergySavings :=
  let reducciones : ℚ × ℚ :=
    if tipo_cubierta = "intensiva" then (0.50, 0.30) else (0.35, 0.15)
  let ahorro_refrigeracion_kwh := 30 * reducciones.1
  let ahorro_calefaccion_kwh := 50 * reducciones.2
  let ahorro_total_kwh_m2 := ahorro_refrigeracion_kwh + ahorro_calefaccion_kwh
  let ahorro_anual_kwh := area_m2 * ahorro_total_kwh_m2
  { ahorro_energia_kwh_anual := pyRound ahorro_anual_kwh 2
  , ahorro_energia_eur_anual := pyRound (ahorro_anual_kwh * 0.25) 2 }

/-- Result dict of `calculate_ecosystem_benefits` (only the fields the
pipeline consumes). -/
structure EcosystemBenefits where
  co2_capturado_kg_anual : ℚ
  agua_retenida_litros_anual : ℚ
  reduccion_temperatura_c : ℚ
  valor_retencion_agua_eur_anual : ℚ
deriving DecidableEq

/-- `calculate_ecosystem_benefits(area_m2, tipo_cubierta)`. -/
def calculate_ecosystem_benefits (area_m2 : ℚ) (tipo_cubierta : String) :
    EcosystemBenefits :=
  let factors : ℚ × ℚ × ℚ :=
    if tipo_cubierta = "intensiva" then (1.3, 1.2, 1.2) else (1.0, 1.0, 1.0)
  let co2_capturado_kg_anual := area_m2 * 5.0 * factors.1
  let agua_retenida_mm := 400 * 0.60 * factors.2.1
  let agua_retenida_litros_anual := area_m2 * agua_retenida_mm * 1.0
  { co2_capturado_kg_anual := pyRound co2_capturado_kg_anual 1
  , agua_retenida_litros_anual := pyRound agua_retenida_litros_anual 0
  , reduccion_temperatura_c := pyRound (1.5 * factors.2.2) 2
  , valor_retencion_agua_eur_anual := pyRound (agua_retenida_litros_anual * 0.002) 2 }

/-! ## ROI (src/api/retrospective_analyze.py, `calculate_roi`) -/

/-- Result dict of `calculate_roi`. -/
structure ROIResult where
  roi_porcentaje : ℚ
  payback_anos : ℚ
  vnp_25_anos_eur : ℚ
deriving DecidableEq

/-- `calculate_roi(projection, comparison)`; the four projection fields it
reads (`coste_neto_inicial_eur`, `ahorro_total_anual`,
`mantenimiento_anual_eur`, `anos_horizonte`) are passed directly.
`TASA_DESCUENTO = 0.03`. -/
def calculate_roi (coste_inicial ahorro_anual mantenimiento_anual : ℚ)
    (anos : ℕ) : ROIResult :=
  let beneficio_neto_anual := ahorro_anual - mantenimiento_anual
  let roi_pct := if coste_inicial > 0 then beneficio_neto_anual / coste_inicial * 100 else 0
  let payback := if beneficio_neto_anual > 0 then coste_inicial / beneficio_neto_anual else 999
  let vnp := -coste_inicial +
    (Finset.range anos).sum (fun ano => beneficio_neto_anual / (1 + 0.03 : ℚ) ^ (ano + 1))
  { roi_porcentaje := pyRound roi_pct 2
  , payback_anos := pyRound payback 1
  , vnp_25_anos_eur := pyRound vnp 2 }

/-! ## AnalysisEngine pipeline (src/api/analyze.py) -/

/-- `get_center_coordinates(coordinates)` (returns `(lat, lon)`). -/
def get_center_coordinates (coordinates : List (ℚ × ℚ)) : ℚ × ℚ :=
  if coordinates.isEmpty then (0, 0)
  else ((coordinates.map (·.2)).sum / (coordinates.length : ℚ),
        (coordinates.map (·.1)).sum / (coordinates.length : ℚ))

/-- Output dict of `AnalysisEngine.geospatial_layer`.  `area_m2`,
`perimetro_m` and `inclinacion_grados` are the geometry-layer outputs
(computed with trigonometry in the source; the value layer consumes them
as plain numbers). -/
structure GeoData where
  area_m2 : ℚ
  perimetro_m : ℚ
  inclinacion_grados : ℚ
  center_lat : ℚ
  center_lon : ℚ
  subsidy_info : SubsidyInfo
deriving DecidableEq

/-- Output dict of `AnalysisEngine.computer_vision_layer`. -/
structure VisionData where
  segmentation : SurfaceSegmentation
  solar_data : SolarExposure
  ndvi_actual : ℚ
deriving DecidableEq

/-- `AnalysisEngine.computer_vision_layer(geo_data)`: the two simulator
calls each construct their own generator (`drawSeg`, `drawSolar` are the
two generators' unit-draw streams). -/
def computer_vision_layer (geo : GeoData) (drawSeg drawSolar : ℕ → ℚ) : VisionData :=
  let segmentation := segment_surfaces geo.area_m2 drawSeg
  { segmentation := segmentation
  , solar_data := analyze_solar_exposure geo.center_lat geo.center_lon geo.area_m2 drawSolar
  , ndvi_actual := calculate_ndvi geo.area_m2 segmentation.vegetacion_previa_m2 }

/-- `AnalysisEngine._calculate_green_score`. -/
def calculate_green_score (factor_verde : ℚ) (horas_sol : ℤ)
    (area_util_pct beneficio_ecosistemico_score : ℚ) (cumple_normativa : Bool) : ℚ :=
  let fv_score := min (factor_verde / 0.8 * 30) 30
  let solar_score := min ((horas_sol : ℚ) / 2800 * 20) 20
  let area_score := area_util_pct / 100 * 15
  let eco_score := min (beneficio_ecosistemico_score / 6 * 20) 20
  let compliance_score : ℚ := if cumple_normativa then 15 else 7.5
  pyRound (fv_score + solar_score + area_score + eco_score + compliance_score) 1

/-- The `subvencion` block of the final report. -/
structure SubvencionReport where
  elegible : Bool
  porcentaje : ℕ
  programa : String
  monto_estimado_eur : ℚ
deriving DecidableEq

/-- The `roi_ambiental` block of the final report. -/
structure RoiAmbiental where
  roi_porcentaje : ℚ
  amortizacion_anos : ℚ
  ahorro_anual_eur : ℚ
  ahorro_25_anos_eur : ℚ
  valor_neto_presente_eur : ℚ
deriving DecidableEq

/-- The final report assembled by `AnalysisEngine.value_generation_layer`.
The free-text `recomendaciones_tecnicas`/`tags` lists and the urban
regeneration add-on blocks (population, green deficit, prioritization),
which no claim consumes, are omitted. -/
structure Report where
  green_score : ℚ
  area_m2 : ℚ
  perimetro_m : ℚ
  inclinacion_grados : ℚ
  factor_verde : ℚ
  cumple_pecv_madrid : Bool
  requisitos : Requisitos
  subvencion : SubvencionReport
  vision_artificial : VisionData
  beneficios_co2_kg_anual : ℚ
  beneficios_agua_litros_anual : ℚ
  ahorro_energia_eur_anual : ℚ
  especies_recomendadas : List PlantSel
  presupuesto : Budget
  roi_ambiental : RoiAmbiental
deriving DecidableEq

/-- `AnalysisEngine.value_generation_layer(geo_data, vision_data)`. -/
def value_generation_layer (geo : GeoData) (vision : VisionData) : Report :=
  let area_m2 := geo.area_m2
  let area_util_m2 := vision.segmentation.area_util_m2
  let clasificacion_solar := vision.solar_data.clasificacion
  let horas_sol := vision.solar_data.horas_sol_anuales
  let orientacion := get_orientation_from_solar_hours (horas_sol : ℚ)
  let fv_result := calculate_factor_verde area_m2 area_util_m2
      "extensiva" orientacion "cubierta_vegetal_extensiva"
  let factor_verde := fv_result.factor_verde
  let especies := get_species_by_exposure clasificacion_solar 3
  let especies_con_cantidades := calculate_plant_quantities area_util_m2 especies
  let especies_nativas_pct := get_native_species_percentage especies
  let requisitos := validate_requirements area_m2 geo.inclinacion_grados
      factor_verde especies_nativas_pct "extensiva"
  let presupuesto := calculate_budget area_util_m2
      (especies_con_cantidades.map (·.coste_total_eur)) true
  let subsidy_info := geo.subsidy_info
  let subsidy_calc := calculate_subsidy_amount presupuesto.coste_total_inicial_eur
      subsidy_info.porcentaje none
  let beneficios := calculate_ecosystem_benefits area_util_m2 "extensiva"
  let ahorro_energia := calculate_energy_savings area_util_m2 "extensiva"
  let ahorro_anual_total := ahorro_energia.ahorro_energia_eur_anual +
      beneficios.valor_retencion_agua_eur_anual
  let inversion_neta := subsidy_calc.inversion_neta_eur
  let amortizacion_anos : ℚ :=
      if ahorro_anual_total > 0 then inversion_neta / ahorro_anual_total else 999
  let roi_porcentaje : ℚ :=
      if inversion_neta > 0 then ahorro_anual_total / inversion_neta * 100 else 0
  let ahorro_25_anos := ahorro_anual_total * 25
  let valor_neto_presente := ahorro_25_anos - inversion_neta
  let green_score := calculate_green_score factor_verde horas_sol
      vision.segmentation.area_util_pct
      (if area_util_m2 > 0 then beneficios.co2_capturado_kg_anual / area_util_m2 else 0)
      requisitos.cumple_todos
  { green_score := green_score
  , area_m2 := pyRound area_m2 2
  , perimetro_m := pyRound geo.perimetro_m 2
  , inclinacion_grados := pyRound geo.inclinacion_grados 1
  , factor_verde := factor_verde
  , cumple_pecv_madrid := requisitos.cumple_todos
  , requisitos := requisitos
  , subvencion :=
      { elegible := subsidy_info.elegible
      , porcentaje := subsidy_info.porcentaje
      , programa := subsidy_info.programa
      , monto_estimado_eur := pyRound subsidy_calc.monto_subvencion_eur 2 }
  , vision_artificial := vision
  , beneficios_co2_kg_anual := pyRound beneficios.co2_capturado_kg_anual 0
  , beneficios_agua_litros_anual := pyRound beneficios.agua_retenida_litros_anual 0
  , ahorro_energia_eur_anual := pyRound ahorro_energia.ahorro_energia_eur_anual 0
  , especies_recomendadas := especies_con_cantidades
  , presupuesto := presupuesto
  , roi_ambiental :=
      { roi_porcentaje := pyRound roi_porcentaje 2
      , amortizacion_anos := pyRound amortizacion_anos 1
      , ahorro_anual_eur := pyRound ahorro_anual_total 0
      , ahorro_25_anos_eur := pyRound ahorro_25_anos 0
      , valor_neto_presente_eur := pyRound valor_neto_presente 0 }}

/-! ## Species recommender (src/api/utils/species_recommender.py) -/

/-- `contextos_validos` dict of a catalog species: which installation
contexts it supports (a missing key reads as `False` via `.get`). -/
structure ContextosValidos where
  tejado_extensivo : Bool
  tejado_intensivo : Bool
  jardin_vertical : Bool
  suelo : Bool
deriving DecidableEq

/-- `restricciones` dict of a catalog species (`requiere_tutor` is never
read by `recommend_species_by_context` and is omitted). -/
structure Restricciones where
  profundidad_minima_cm : ℚ
  peso_max_kg_m2 : ℚ
deriving DecidableEq

/-- One record of `ESPECIES_DATABASE`.  `beneficios_ambientales` is
flattened into the three numeric scores the recommender reads (a missing
`retencion_agua_porcentaje` reads as 0, so Encina carries 0); purely
descriptive fields (`tipo`, heights, growth data) are omitted. -/
structure EspecieDB where
  nombre_comun : String
  nombre_cientifico : String
  nativa_espana : Bool
  nivel_economia : String
  mantenimiento_anual : String
  riego_necesario : String
  requerimientos_sol : String
  comestible : Bool
  aromatica : Bool
  melifera : Bool
  contextos_validos : ContextosValidos
  restricciones : Restricciones
  co2_kg_m2_anual : ℚ
  retencion_agua_porcentaje : ℚ
  biodiversidad_score : ℚ
deriving DecidableEq

def sedumBlancoDB : EspecieDB :=
  { nombre_comun := "Sedum blanco", nombre_cientifico := "Sedum album"
  , nativa_espana := true, nivel_economia := "muy_alta"
  , mantenimiento_anual := "nulo", riego_necesario := "nulo"
  , requerimientos_sol := "pleno_sol"
  , comestible := false, aromatica := false, melifera := true
  , contextos_validos := { tejado_extensivo := true, tejado_intensivo := true
                         , jardin_vertical := true, suelo := true }
  , restricciones := { profundidad_minima_cm := 3, peso_max_kg_m2 := 5 }
  , co2_kg_m2_anual := 0.5, retencion_agua_porcentaje := 40
  , biodiversidad_score := 7 }

def tomilloDB : EspecieDB :=
  { nombre_comun := "Tomillo", nombre_cientifico := "Thymus vulgaris"
  , nativa_espana := true, nivel_economia := "muy_alta"
  , mantenimiento_anual := "muy_bajo", riego_necesario := "mínimo"
  , requerimientos_sol := "pleno_sol"
  , comestible := true, aromatica := true, melifera := true
  , contextos_validos := { tejado_extensivo := true, tejado_intensivo := true
                         , jardin_vertical := false, suelo := true }
  , restricciones := { profundidad_minima_cm := 10, peso_max_kg_m2 := 12 }
  , co2_kg_m2_anual := 0.8, retencion_agua_porcentaje := 30
  , biodiversidad_score := 9 }

def siemprevivaDB : EspecieDB :=
  { nombre_comun := "Siempreviva", nombre_cientifico := "Sempervivum tectorum"
  , nativa_espana := true, nivel_economia := "muy_alta"
  , mantenimiento_anual := "nulo", riego_necesario := "nulo"
  , requerimientos_sol := "pleno_sol"
  , comestible := false, aromatica := false, melifera := false
  , contextos_validos := { tejado_extensivo := true, tejado_intensivo := true
                         , jardin_vertical := true, suelo := false }
  , restricciones := { profundidad_minima_cm := 5, peso_max_kg_m2 := 8 }
  , co2_kg_m2_anual := 0.4, retencion_agua_porcentaje := 35
  , biodiversidad_score := 6 }

def romeroDB : EspecieDB :=
  { nombre_comun := "Romero", nombre_cientifico := "Rosmarinus officinalis"
  , nativa_espana := true, nivel_economia := "muy_alta"
  , mantenimiento_anual := "muy_bajo", riego_necesario := "nulo"
  , requerimientos_sol := "pleno_sol"
  , comestible := true, aromatica := true, melifera := true
  , contextos_validos := { tejado_extensivo := false, tejado_intensivo := true
                         , jardin_vertical := false, suelo := true }
  , restricciones := { profundidad_minima_cm := 30, peso_max_kg_m2 := 35 }
  , co2_kg_m2_anual := 2.5, retencion_agua_porcentaje := 25
  , biodiversidad_score := 9 }

def lavandaDB : EspecieDB :=
  { nombre_comun := "Lavanda", nombre_cientifico := "Lavandula angustifolia"
  , nativa_espana := true, nivel_economia := "muy_alta"
  , mantenimiento_anual := "muy_bajo", riego_necesario := "bajo"
  , requerimientos_sol := "pleno_sol"
  , comestible := false, aromatica := true, melifera := true
  , contextos_validos := { tejado_extensivo := false, tejado_intensivo := true
                         , jardin_vertical := false, suelo := true }
  , restricciones := { profundidad_minima_cm := 20, peso_max_kg_m2 := 25 }
  , co2_kg_m2_anual := 1.2, retencion_agua_porcentaje := 28
  , biodiversidad_score := 8 }

def hiedraDB : EspecieDB :=
  { nombre_comun := "Hiedra", nombre_cientifico := "Hedera helix"
  , nativa_espana := true, nivel_economia := "alta"
  , mantenimiento_anual := "bajo", riego_necesario := "medio"
  , requerimientos_sol := "media_sombra"
  , comestible := false, aromatica := false, melifera := false
  , contextos_validos := { tejado_extensivo := false, tejado_intensivo := false
                         , jardin_vertical := true, suelo := true }
  , restricciones := { profundidad_minima_cm := 20, peso_max_kg_m2 := 22 }
  , co2_kg_m2_anual := 1.8, retencion_agua_porcentaje := 35
  , biodiversidad_score := 6 }

def encinaDB : EspecieDB :=
  { nombre_comun := "Encina", nombre_cientifico := "Quercus ilex"
  , nativa_espana := true, nivel_economia := "alta"
  , mantenimiento_anual := "nulo", riego_necesario := "solo_establecimiento"
  , requerimientos_sol := "pleno_sol"
  , comestible := false, aromatica := false, melifera := true
  , contextos_validos := { tejado_extensivo := false, tejado_intensivo := false
                         , jardin_vertical := false, suelo := true }
  , restricciones := { profundidad_minima_cm := 200, peso_max_kg_m2 := 500 }
  , co2_kg_m2_anual := 800, retencion_agua_porcentaje := 0
  , biodiversidad_score := 10 }

def santolinaDB : EspecieDB :=
  { nombre_comun := "Santolina", nombre_cientifico := "Santolina chamaecyparissus"
  , nativa_espana := true, nivel_economia := "muy_alta"
  , mantenimiento_anual := "muy_bajo", riego_necesario := "bajo"
  , requerimientos_sol := "pleno_sol"
  , comestible := false, aromatica := true, melifera := true
  , contextos_validos := { tejado_extensivo := true, tejado_intensivo := true
                         , jardin_vertical := false, suelo := true }
  , restricciones := { profundidad_minima_cm := 15, peso_max_kg_m2 := 18 }
  , co2_kg_m2_anual := 1.0, retencion_agua_porcentaje := 32
  , biodiversidad_score := 7 }

def festucaDB : EspecieDB :=
  { nombre_comun := "Festuca glauca", nombre_cientifico := "Festuca glauca"
  , nativa_espana := true, nivel_economia := "muy_alta"
  , mantenimiento_anual := "muy_bajo", riego_necesario := "bajo"
  , requerimientos_sol := "pleno_sol"
  , comestible := false, aromatica := false, melifera := false
  , contextos_validos := { tejado_extensivo := true, tejado_intensivo := true
                         , jardin_vertical := false, suelo := true }
  , restricciones := { profundidad_minima_cm := 10, peso_max_kg_m2 := 15 }
  , co2_kg_m2_anual := 0.7, retencion_agua_porcentaje := 25
  , biodiversidad_score := 5 }

/-- `ESPECIES_DATABASE`, in source order. -/
def ESPECIES_DATABASE : List EspecieDB :=
  [sedumBlancoDB, tomilloDB, siemprevivaDB, romeroDB, lavandaDB, hiedraDB,
   encinaDB, santolinaDB, festucaDB]

/-- The `caracteristicas` dict: the fields `recommend_species_by_context`
reads, each optional exactly like a dict key can be absent. -/
structure Caracteristicas where
  profundidad_sustrato_cm : Option ℚ
  carga_admisible_kg_m2 : Option ℚ
  exposicion_solar : Option String
deriving DecidableEq

/-- `normalize_economy_level`. -/
def normalize_economy_level (nivel : String) : ℚ :=
  if nivel = "muy_alta" then 1.0
  else if nivel = "alta" then 0.75
  else if nivel = "media" then 0.5
  else if nivel = "baja" then 0.25
  else 0.5

/-- `normalize_maintenance_level`. -/
def normalize_maintenance_level (nivel : String) : ℚ :=
  if nivel = "nulo" then 1.0
  else if nivel = "muy_bajo" then 0.9
  else if nivel = "bajo" then 0.7
  else if nivel = "medio" then 0.5
  else if nivel = "alto" then 0.3
  else 0.5

/-- `normalize_irrigation_level`. -/
def normalize_irrigation_level (nivel : String) : ℚ :=
  if nivel = "nulo" then 1.0
  else if nivel = "solo_establecimiento" then 0.95
  else if nivel = "mínimo" then 0.85
  else if nivel = "bajo" then 0.7
  else if nivel = "medio" then 0.5
  else if nivel = "alto" then 0.3
  else 0.5

/-- One weight table of `PRIORITY_WEIGHTS`; a key absent from the dict is
`none`. -/
structure Weights where
  nivel_economia : Option ℚ
  economia : Option ℚ
  mantenimiento : Option ℚ
  riego : Option ℚ
  biodiversidad : Option ℚ
  melifera : Option ℚ
  nativa : Option ℚ
  comestible : Option ℚ
  aromatica : Option ℚ
  beneficios : Option ℚ
deriving DecidableEq

def weightsEconomia : Weights :=
  { nivel_economia := some 0.40, economia := none, mantenimiento := some 0.30
  , riego := some 0.20, biodiversidad := some 0.05, melifera := none
  , nativa := none, comestible := none, aromatica := none, beneficios := some 0.05 }

def weightsBiodiversidad : Weights :=
  { nivel_economia := none, economia := some 0.05, mantenimiento := none
  , riego := none, biodiversidad := some 0.40, melifera := some 0.25
  , nativa := some 0.20, comestible := none, aromatica := none, beneficios := some 0.10 }

def weightsComestible : Weights :=
  { nivel_economia := none, economia := some 0.10, mantenimiento := some 0.10
  , riego := none, biodiversidad := none, melifera := none
  , nativa := some 0.15, comestible := some 0.40, aromatica := some 0.25
  , beneficios := none }

def weightsEstetica : Weights :=
  { nivel_economia := none, economia := some 0.10, mantenimiento := none
  , riego := none, biodiversidad := some 0.30, melifera := some 0.20
  , nativa := none, comestible := none, aromatica := some 0.25
  , beneficios := some 0.15 }

/-- `PRIORITY_WEIGHTS.get(prioridad, PRIORITY_WEIGHTS['economia'])`. -/
def priorityWeights (prioridad : String) : Weights :=
  if prioridad = "economia" then weightsEconomia
  else if prioridad = "biodiversidad" then weightsBiodiversidad
  else if prioridad = "comestible" then weightsComestible
  else if prioridad = "estetica" then weightsEstetica
  else weightsEconomia

/-- `calculate_suitability_score(especie, caracteristicas, prioridad)`.
The `caracteristicas` argument is accepted but never read, exactly as in
the source. -/
def calculate_suitability_score (especie : EspecieDB)
    (caracteristicas : Caracteristicas) (prioridad : String) : ℚ :=
  let weights := priorityWeights prioridad
  let economy_term : ℚ :=
    if weights.economia.isSome || weights.nivel_economia.isSome then
      normalize_economy_level especie.nivel_economia *
        weights.nivel_economia.getD (weights.economia.getD 0)
    else 0
  let maintenance_term : ℚ :=
    match weights.mantenimiento with
    | some w => normalize_maintenance_level especie.mantenimiento_anual * w
    | none => 0
  let irrigation_term : ℚ :=
    match weights.riego with
    | some w => normalize_irrigation_level especie.riego_necesario * w
    | none => 0
  let bio_term : ℚ :=
    match weights.biodiversidad with
    | some w => especie.biodiversidad_score / 10 * w
    | none => 0
  let melifera_term : ℚ :=
    match weights.melifera with
    | some w => (if especie.melifera then 1.0 else 0.3) * w
    | none => 0
  let nativa_term : ℚ :=
    match weights.nativa with
    | some w => (if especie.nativa_espana then 1.0 else 0.5) * w
    | none => 0
  let comestible_term : ℚ :=
    match weights.comestible with
    | some w => (if especie.comestible then 1.0 else 0.0) * w
    | none => 0
  let aromatica_term : ℚ :=
    match weights.aromatica with
    | some w => (if especie.aromatica then 1.0 else 0.3) * w
    | none => 0
  let beneficios_term : ℚ :=
    match weights.beneficios with
    | some w =>
        (min (especie.co2_kg_m2_anual / 5) 1 + especie.retencion_agua_porcentaje / 100) / 2 * w
    | none => 0
  let score := economy_term + maintenance_term + irrigation_term + bio_term +
    melifera_term + nativa_term + comestible_term + aromatica_term + beneficios_term
  pyRound (score * 100) 2

/-- `especie['contextos_validos'].get(context_key, False)`. -/
def contextoValido (cv : ContextosValidos) (key : String) : Bool :=
  if key = "tejado_extensivo" then cv.tejado_extensivo
  else if key = "tejado_intensivo" then cv.tejado_intensivo
  else if key = "jardin_vertical" then cv.jardin_vertical
  else if key = "suelo" then cv.suelo
  else false

/-- The context key `recommend_species_by_context` derives from the
specialization type and characteristics. -/
def recommenderContextKey (tipo_especializacion : String)
    (caracteristicas : Caracteristicas) : String :=
  if tipo_especializacion = "tejado" then
    let profundidad := caracteristicas.profundidad_sustrato_cm.getD 15
    if profundidad ≥ 30 then "tejado_intensivo"
    else if profundidad ≥ 15 then "semi_intensivo"
    else "tejado_extensivo"
  else if tipo_especializacion = "jardin_vertical" then "jardin_vertical"
  else if tipo_especializacion = "solar_vacio" then "suelo"
  else if tipo_especializacion = "zona_abandonada" then "suelo"
  else if tipo_especializacion = "parque_degradado" then "suelo"
  else "suelo"

/-- The per-species filter of the `for` loop in
`recommend_species_by_context` (`continue` means the predicate fails). -/
def recommenderKeeps (context_key : String) (caracteristicas : Caracteristicas)
    (especie : EspecieDB) : Bool :=
  let context_ok :=
    contextoValido especie.contextos_validos context_key ||
      (context_key = "semi_intensivo" &&
        especie.contextos_validos.tejado_extensivo &&
        especie.contextos_validos.tejado_intensivo)
  let profundidad_disponible := caracteristicas.profundidad_sustrato_cm.getD 100
  let carga_admisible := caracteristicas.carga_admisible_kg_m2.getD 9999
  let exposicion_solar := caracteristicas.exposicion_solar.getD "pleno_sol"
  let req_sol := especie.requerimientos_sol
  let compatible_sol :=
    !((exposicion_solar = "sombra" && req_sol = "pleno_sol") ||
      (exposicion_solar = "pleno_sol" && req_sol = "sombra"))
  context_ok &&
    decide (especie.restricciones.profundidad_minima_cm ≤ profundidad_disponible) &&
    decide (especie.restricciones.peso_max_kg_m2 ≤ carga_admisible) &&
    compatible_sol

/-- `recommend_species_by_context(tipo_especializacion, caracteristicas,
prioridad, max_especies)`: filter, score, stable-sort descending by score
(`list.sort(key=..., reverse=True)` is `insertionSort` with `≥` on the
score), truncate. -/
def recommend_species_by_context (tipo_especializacion : String)
    (caracteristicas : Caracteristicas) (prioridad : String)
    (max_especies : ℕ) : List (EspecieDB × ℚ) :=
  let context_key := recommenderContextKey tipo_especializacion caracteristicas
  let especies_aptas :=
    (ESPECIES_DATABASE.filter (recommenderKeeps context_key caracteristicas)).map
      fun e => (e, calculate_suitability_score e caracteristicas prioridad)
  (especies_aptas.insertionSort fun a b => a.2 ≥ b.2).take max_especies

/-! ## Geodesic geometry (src/api/analyze.py, haversine / shoelace) -/

open Real in
/-- `math.atan2(y, x)` (four-quadrant arctangent). -/
noncomputable def atan2 (y x : ℝ) : ℝ :=
  if 0 < x then arctan (y / x)
  else if x < 0 ∧ 0 ≤ y then arctan (y / x) + π
  else if x < 0 ∧ y < 0 then arctan (y / x) - π
  else if x = 0 ∧ 0 < y then π / 2
  else if x = 0 ∧ y < 0 then -(π / 2)
  else 0

/-- `math.radians(x)`. -/
noncomputable def radians (x : ℝ) : ℝ := x * Real.pi / 180

open Real in
/-- `haversine_distance(lat1, lon1, lat2, lon2)` on a sphere of radius
`EARTH_RADIUS_M = 6371000`. -/
noncomputable def haversine_distance (lat1 lon1 lat2 lon2 : ℝ) : ℝ :=
  let lat1_rad := radians lat1
  let lat2_rad := radians lat2
  let delta_lat := radians (lat2 - lat1)
  let delta_lon := radians (lon2 - lon1)
  let a := sin (delta_lat / 2) ^ 2 +
    cos lat1_rad * cos lat2_rad * sin (delta_lon / 2) ^ 2
  let c := 2 * atan2 (sqrt a) (sqrt (1 - a))
  6371000 * c

/-- The signed shoelace sum over a list of planar points (the `for i in
range(n)` loop with wrap-around indexing). -/
def shoelaceSum (ps : List (ℝ × ℝ)) : ℝ :=
  ((List.range ps.length).map fun i =>
    let p := ps.getD i (0, 0)
    let q := ps.getD ((i + 1) % ps.length) (0, 0)
    p.1 * q.2 - q.1 * p.2).sum

/-- `calculate_area_haversine(coordinates)`: coordinates are `(lon, lat)`
pairs; fewer than 3 points give area 0, otherwise vertices are projected
to a planar frame at the centroid latitude and the absolute shoelace
half-sum is returned. -/
noncomputable def calculate_area_haversine (coordinates : List (ℝ × ℝ)) : ℝ :=
  if coordinates.length < 3 then 0
  else
    let center_lat := (coordinates.map (·.2)).sum / (coordinates.length : ℝ)
    let cos_lat := Real.cos (radians center_lat)
    let planar := coordinates.map fun p => (p.1 * cos_lat * 111320, p.2 * 111000)
    |shoelaceSum planar| / 2

/-- `calculate_perimeter(coordinates)`: fewer than 2 points give 0,
otherwise the sum of consecutive (wrap-around) haversine distances. -/
noncomputable def calculate_perimeter (coordinates : List (ℝ × ℝ)) : ℝ :=
  if coordinates.length < 2 then 0
  else
    ((List.range coordinates.length).map fun i =>
      let p := coordinates.getD i (0, 0)
      let q := coordinates.getD ((i + 1) % coordinates.length) (0, 0)
      haversine_distance p.2 p.1 q.2 q.1).sum

theorem atan2_nonneg {y x : ℝ} (hy : 0 ≤ y) : 0 ≤ atan2 y x := by
  unfold atan2
  split_ifs with h1 h2 h3 h4 h5
  · rw [show (0:ℝ) = Real.arctan 0 by rw [Real.arctan_zero]]
    exact Real.arctan_strictMono.monotone (div_nonneg hy h1.le)
  · have := Real.neg_pi_div_two_lt_arctan (y / x)
    have hpi := Real.pi_pos
    linarith
  · exact absurd h3.2 (not_lt.mpr hy)
  · positivity
  · exact absurd h5.2 (not_lt.mpr hy)
  · exact le_refl 0

theorem haversine_distance_nonneg (lat1 lon1 lat2 lon2 : ℝ) :
    0 ≤ haversine_distance lat1 lon1 lat2 lon2 := by
  unfold haversine_distance
  have h := atan2_nonneg (x := Real.sqrt (1 -
      (Real.sin (radians (lat2 - lat1) / 2) ^ 2 +
       Real.cos (radians lat1) * Real.cos (radians lat2) *
         Real.sin (radians (lon2 - lon1) / 2) ^ 2)))
    (Real.sqrt_nonneg (Real.sin (radians (lat2 - lat1) / 2) ^ 2 +
       Real.cos (radians lat1) * Real.cos (radians lat2) *
         Real.sin (radians (lon2 - lon1) / 2) ^ 2))
  positivity

theorem calculate_perimeter_nonneg (coordinates : List (ℝ × ℝ)) :
    0 ≤ calculate_perimeter coordinates := by
  unfold calculate_perimeter
  split_ifs
  · exact le_refl 0
  · apply List.sum_nonneg
    intro x hx
    simp only [List.mem_map] at hx
    obtain ⟨i, _, rfl⟩ := hx
    exact haversine_distance_nonneg _ _ _ _

theorem calculate_area_haversine_nonneg (coordinates : List (ℝ × ℝ)) :
    0 ≤ calculate_area_haversine coordinates := by
  unfold calculate_area_haversine
  split_ifs
  · exact le_refl 0
  · positivity

/-! ## Claim theorems -/

theorem pyRound_zero (n : ℕ) : pyRound 0 n = 0 := by
  unfold pyRound rhe
  norm_num [Int.fract]

/-- C2 counterexample: the claim's biconditional reading of the sentinel
fails — with net investment 999 and net annual benefit 1 > 0 the returned
payback is exactly the sentinel 999; and with net investment 0 and
benefit 5 > 0 the returned payback is 0, not positive. -/
theorem C2_counterexample :
    (calculate_roi 999 1 0 25).payback_anos = 999 ∧ (0:ℚ) < 1 - 0 ∧
    (calculate_roi 0 5 0 25).payback_anos = 0 ∧ (0:ℚ) < 5 - 0 := by
  refine ⟨?_, by norm_num, ?_, by norm_num⟩ <;>
    norm_num [calculate_roi, pyRound, rhe, Int.fract, Int.even_iff]

/-- C2 (amended): `payback_anos` is 999 whenever net annual benefit ≤ 0;
otherwise it is the 1-decimal rounding of net_investment / net_benefit
(nonnegative whenever net_investment ≥ 0). `roi_porcentaje` is the
2-decimal rounding of net_benefit / net_investment × 100 when
net_investment > 0 and 0 when net_investment ≤ 0; both divisions are
guarded, so no zero denominator is evaluated. -/
theorem C2_roi_payback_amended (coste ahorro mant : ℚ) (anos : ℕ) :
    (ahorro - mant ≤ 0 → (calculate_roi coste ahorro mant anos).payback_anos = 999) ∧
    (0 < ahorro - mant →
      (calculate_roi coste ahorro mant anos).payback_anos =
        pyRound (coste / (ahorro - mant)) 1 ∧
      (0 ≤ coste → 0 ≤ (calculate_roi coste ahorro mant anos).payback_anos)) ∧
    (0 < coste →
      (calculate_roi coste ahorro mant anos).roi_porcentaje =
        pyRound ((ahorro - mant) / coste * 100) 2) ∧
    (coste ≤ 0 → (calculate_roi coste ahorro mant anos).roi_porcentaje = 0) := by
  unfold calculate_roi
  refine ⟨fun h => ?_, fun h => ⟨?_, fun hc => ?_⟩, fun h => ?_, fun h => ?_⟩
  · simp only [if_neg (not_lt.mpr h)]
    norm_num [pyRound, rhe, Int.fract, Int.even_iff]
  · simp only [if_pos h]
  · simp only [if_pos h]
    exact pyRound_nonneg 1 (div_nonneg hc h.le)
  · simp only [if_pos h]
  · simp only [if_neg (not_lt.mpr h), pyRound_zero]

/-- C2 witness: both regimes of the amended theorem at concrete inputs. -/
theorem C2_roi_payback_amended_witness :
    (calculate_roi 1000 20 30 25).payback_anos = 999 ∧
    ((calculate_roi 1000 60 10 25).payback_anos = pyRound (1000 / (60 - 10)) 1 ∧
      0 ≤ (calculate_roi 1000 60 10 25).payback_anos) ∧
    (calculate_roi 1000 60 10 25).roi_porcentaje =
      pyRound ((60 - 10) / 1000 * 100) 2 := by
  refine ⟨(C2_roi_payback_amended 1000 20 30 25).1 (by norm_num),
    ⟨((C2_roi_payback_amended 1000 60 10 25).2.1 (by norm_num)).1,
     ((C2_roi_payback_amended 1000 60 10 25).2.1 (by norm_num)).2 (by norm_num)⟩,
    (C2_roi_payback_amended 1000 60 10 25).2.2.1 (by norm_num)⟩

/-- C4: for a fixed positive total area and fixed lookup keys, the
reported `factor_verde` is monotonically non-decreasing in the green
area, and it is the 3-decimal rounding of
`(Ct * Co * (Ci * green_area)) / total_area`. -/
theorem C4_factor_verde_monotone (area_total g1 g2 : ℚ)
    (tipo orientacion infra : String)
    (htot : 0 < area_total) (hg : g1 ≤ g2) :
    (calculate_factor_verde area_total g1 tipo orientacion infra).factor_verde ≤
      (calculate_factor_verde area_total g2 tipo orientacion infra).factor_verde ∧
    (calculate_factor_verde area_total g1 tipo orientacion infra).factor_verde =
      pyRound ((coefTipoCubierta tipo * coefOrientacion orientacion *
        (coefInfraestructura infra * g1)) / area_total) 3 := by
  have hct := coefTipoCubierta_pos tipo
  have hco := coefOrientacion_pos orientacion
  have hci := coefInfraestructura_pos infra
  have hfv : ∀ g, (calculate_factor_verde area_total g tipo orientacion infra).factor_verde =
      pyRound ((coefTipoCubierta tipo * coefOrientacion orientacion *
        (coefInfraestructura infra * g)) / area_total) 3 := by
    intro g
    simp only [calculate_factor_verde, if_pos htot]
  refine ⟨?_, hfv g1⟩
  rw [hfv g1, hfv g2]
  apply pyRound_mono
  gcongr

/-- C4 witness: monotonicity and the formula at a concrete instance. -/
theorem C4_factor_verde_monotone_witness :
    (calculate_factor_verde 100 10 "extensiva" "sur"
        "cubierta_vegetal_extensiva").factor_verde ≤
      (calculate_factor_verde 100 20 "extensiva" "sur"
        "cubierta_vegetal_extensiva").factor_verde ∧
    (calculate_factor_verde 100 10 "extensiva" "sur"
        "cubierta_vegetal_extensiva").factor_verde =
      pyRound ((coefTipoCubierta "extensiva" * coefOrientacion "sur" *
        (coefInfraestructura "cubierta_vegetal_extensiva" * 10)) / 100) 3 :=
  C4_factor_verde_monotone 100 10 20 "extensiva" "sur"
    "cubierta_vegetal_extensiva" (by norm_num) (by norm_num)

/-- C9: determinism under seeding.  A seeded generator is a deterministic
stream of unit draws, a function of the seed alone; for any such
stream-of-the-seed and any two invocations whose seeds are equal, both
simulator outputs coincide — they depend on nothing but the declared
inputs and the seed. -/
theorem C9_determinism_under_seeding (stream : ℤ → ℕ → ℚ)
    (seed₁ seed₂ : ℤ) (area lat lon : ℚ) (h : seed₁ = seed₂) :
    segment_surfaces area (stream seed₁) = segment_surfaces area (stream seed₂) ∧
    analyze_solar_exposure lat lon area (stream seed₁) =
      analyze_solar_exposure lat lon area (stream seed₂) := by
  subst h
  exact ⟨rfl, rfl⟩

/-- C9 witness: two invocations with the same seed on a concrete stream. -/
theorem C9_determinism_under_seeding_witness :
    segment_surfaces 120 ((fun _ _ => (1:ℚ)/2) (7:ℤ)) =
      segment_surfaces 120 ((fun _ _ => (1:ℚ)/2) (7:ℤ)) ∧
    analyze_solar_exposure 40.4 (-3.7) 120 ((fun _ _ => (1:ℚ)/2) (7:ℤ)) =
      analyze_solar_exposure 40.4 (-3.7) 120 ((fun _ _ => (1:ℚ)/2) (7:ℤ)) :=
  C9_determinism_under_seeding (fun _ _ => (1:ℚ)/2) 7 7 120 40.4 (-3.7) rfl

/-- C10: at latitude ≥ 41.5 the base is 2200 h and the drawn shadow
factor is below 0.95, so the truncated annual hours stay below 2090 < 2200
and the classification can never be `SOL_DIRECTO` — only `MIXTA` or
`SOMBRA`. -/
theorem C10_high_latitude_no_direct_sun (lat lon area : ℚ) (draw : ℕ → ℚ)
    (hlat : 41.5 ≤ lat) (h0 : 0 ≤ draw 0) (h1 : draw 0 < 1) :
    (analyze_solar_exposure lat lon area draw).clasificacion ≠ "SOL_DIRECTO" ∧
    ((analyze_solar_exposure lat lon area draw).clasificacion = "MIXTA" ∨
      (analyze_solar_exposure lat lon area draw).clasificacion = "SOMBRA") ∧
    (analyze_solar_exposure lat lon area draw).horas_sol_anuales < 2200 := by
  have hs1 : pyUniform 0.75 0.95 (draw 0) < 0.95 := by
    unfold pyUniform; nlinarith
  have hs0 : (0:ℚ) ≤ pyUniform 0.75 0.95 (draw 0) := by
    unfold pyUniform; nlinarith
  have hprod : (2200:ℚ) * pyUniform 0.75 0.95 (draw 0) < 2090 := by nlinarith
  have hint : pyInt ((2200:ℚ) * pyUniform 0.75 0.95 (draw 0)) < 2200 := by
    unfold pyInt
    rw [if_pos (by positivity)]
    have : ((2200:ℚ) * pyUniform 0.75 0.95 (draw 0)) < (2200 : ℤ) := by
      push_cast; nlinarith
    exact Int.floor_lt.mpr this
  unfold analyze_solar_exposure
  simp only [ge_iff_le, if_pos hlat, if_neg (not_le.mpr hint)]
  refine ⟨?_, ?_, hint⟩
  · split_ifs <;> decide
  · split_ifs with h
    · exact Or.inl rfl
    · exact Or.inr rfl

/-- C10 witness: latitude 42 with mid-range draw is classified `MIXTA`. -/
theorem C10_high_latitude_no_direct_sun_witness :
    (analyze_solar_exposure 42 (-3.7) 500 (fun _ => 1/2)).clasificacion ≠
      "SOL_DIRECTO" ∧
    ((analyze_solar_exposure 42 (-3.7) 500 (fun _ => 1/2)).clasificacion = "MIXTA" ∨
      (analyze_solar_exposure 42 (-3.7) 500 (fun _ => 1/2)).clasificacion = "SOMBRA") ∧
    (analyze_solar_exposure 42 (-3.7) 500 (fun _ => 1/2)).horas_sol_anuales < 2200 :=
  C10_high_latitude_no_direct_sun 42 (-3.7) 500 (fun _ => 1/2)
    (by norm_num) (by norm_num) (by norm_num)

/-- C6: every point of the historic-center box is eligible at 80% under
the historic-center program — the first zone tested matches — even though
the point also lies inside the larger `ensanche` and `periferia` boxes
(zones 2 and 3 of the priority-ordered table). -/
theorem C6_historic_center_first_match (lat lon : ℚ)
    (h1 : 40.405 ≤ lat) (h2 : lat ≤ 40.430)
    (h3 : -3.720 ≤ lon) (h4 : lon ≤ -3.690) :
    check_subsidy_eligibility lat lon =
      { elegible := true, porcentaje := 80, zona := "Centro Histórico Madrid"
      , programa := "PECV Madrid 2025 + Fondos Next Generation"
      , requisitos := ["Factor Verde ≥ 0.6", "Mínimo 60% especies nativas",
                       "Proyecto técnico visado", "Licencia municipal"] } ∧
    point_in_bounds lat lon (ZONAS_SUBVENCION.getD 1 default).bounds = true ∧
    point_in_bounds lat lon (ZONAS_SUBVENCION.getD 2 default).bounds = true := by
  have hc : point_in_bounds lat lon
      { min_lat := 40.405, max_lat := 40.430, min_lon := -3.720, max_lon := -3.690 } = true := by
    simp only [point_in_bounds, decide_eq_true_eq]
    exact ⟨h1, h2, h3, h4⟩
  refine ⟨?_, ?_, ?_⟩
  · unfold check_subsidy_eligibility ZONAS_SUBVENCION
    simp only [List.find?_cons, hc]
  · have hb : (ZONAS_SUBVENCION.getD 1 default).bounds =
        { min_lat := 40.395, max_lat := 40.440, min_lon := -3.730, max_lon := -3.680 } := rfl
    rw [hb]
    simp only [point_in_bounds, decide_eq_true_eq]
    exact ⟨by linarith, by linarith, by linarith, by linarith⟩
  · have hb : (ZONAS_SUBVENCION.getD 2 default).bounds =
        { min_lat := 40.350, max_lat := 40.480, min_lon := -3.800, max_lon := -3.600 } := rfl
    rw [hb]
    simp only [point_in_bounds, decide_eq_true_eq]
    exact ⟨by linarith, by linarith, by linarith, by linarith⟩

/-- C6 witness: Puerta del Sol (40.4168, −3.7038). -/
theorem C6_historic_center_first_match_witness :
    check_subsidy_eligibility 40.4168 (-3.7038) =
      { elegible := true, porcentaje := 80, zona := "Centro Histórico Madrid"
      , programa := "PECV Madrid 2025 + Fondos Next Generation"
      , requisitos := ["Factor Verde ≥ 0.6", "Mínimo 60% especies nativas",
                       "Proyecto técnico visado", "Licencia municipal"] } ∧
    point_in_bounds 40.4168 (-3.7038) (ZONAS_SUBVENCION.getD 1 default).bounds = true ∧
    point_in_bounds 40.4168 (-3.7038) (ZONAS_SUBVENCION.getD 2 default).bounds = true :=
  C6_historic_center_first_match 40.4168 (-3.7038)
    (by norm_num) (by norm_num) (by norm_num) (by norm_num)

/-- C7 counterexample: with area 100.005 m² and all unit draws ½ (every
drawn percentage mid-range, obstacle share exactly 10%), the reported
`area_util_m2` is 90.00 while `area_m2 − obstaculos_m2` is
100.005 − 10.00 = 90.005 — the rounded record does not satisfy the
identity exactly. -/
theorem C7_counterexample :
    (segment_surfaces 100.005 (fun _ => 1/2)).area_util_m2 ≠
      100.005 - (segment_surfaces 100.005 (fun _ => 1/2)).obstaculos_m2 := by
  have hobs : seg_obstaculos_pre 100.005 (fun _ => 1/2) = 10.0005 := by
    norm_num [seg_obstaculos_pre, seg_total, seg_asfalto_raw, seg_grava_raw,
      seg_vegetacion_raw, seg_obstaculos_raw, pyUniform]
  have hpre : seg_area_util_pre 100.005 (fun _ => 1/2) = 90.0045 := by
    rw [seg_area_util_pre, hobs]
    norm_num
  have h1 : (segment_surfaces 100.005 (fun _ => 1/2)).area_util_m2 =
      pyRound (seg_area_util_pre 100.005 (fun _ => 1/2)) 2 := rfl
  have h2 : (segment_surfaces 100.005 (fun _ => 1/2)).obstaculos_m2 =
      pyRound (seg_obstaculos_pre 100.005 (fun _ => 1/2)) 2 := rfl
  rw [h1, h2, hpre, hobs]
  norm_num [pyRound, rhe, Int.fract, Int.even_iff]

/-- C7 (amended): the segmentation identity holds exactly on the
pre-rounding values — `area_util = area − obstaculos` with
`0 < obstaculos`, hence `area_util < area` — and the reported record
carries the 2-decimal roundings of those values, so the reported
`area_util_m2` is bounded by the 2-decimal rounding of the area. -/
theorem C7_segmentation_invariant_amended (area : ℚ) (draw : ℕ → ℚ)
    (harea : 0 < area) (hd : ∀ i, 0 ≤ draw i ∧ draw i < 1) :
    (segment_surfaces area draw).area_util_m2 =
      pyRound (seg_area_util_pre area draw) 2 ∧
    (segment_surfaces area draw).obstaculos_m2 =
      pyRound (seg_obstaculos_pre area draw) 2 ∧
    seg_area_util_pre area draw = area - seg_obstaculos_pre area draw ∧
    0 < seg_obstaculos_pre area draw ∧
    seg_area_util_pre area draw < area ∧
    (segment_surfaces area draw).area_util_m2 ≤ pyRound area 2 := by
  have h0 := (hd 0).1
  have h1 := (hd 1).1
  have h2 := (hd 2).1
  have h3 := (hd 3).1
  have hraw : (0:ℚ) < seg_obstaculos_raw draw := by
    unfold seg_obstaculos_raw pyUniform; nlinarith
  have htotal : (0:ℚ) < seg_total draw := by
    unfold seg_total seg_asfalto_raw seg_grava_raw seg_vegetacion_raw
      seg_obstaculos_raw pyUniform
    nlinarith
  have hobs : 0 < seg_obstaculos_pre area draw := by
    unfold seg_obstaculos_pre
    positivity
  have hlt : seg_area_util_pre area draw < area := by
    unfold seg_area_util_pre; linarith
  exact ⟨rfl, rfl, rfl, hobs, hlt, pyRound_mono 2 hlt.le⟩

/-- C7 witness: the amended invariant at area 200 with mid-range draws. -/
theorem C7_segmentation_invariant_amended_witness :
    (segment_surfaces 200 (fun _ => 1/2)).area_util_m2 =
      pyRound (seg_area_util_pre 200 (fun _ => 1/2)) 2 ∧
    (segment_surfaces 200 (fun _ => 1/2)).obstaculos_m2 =
      pyRound (seg_obstaculos_pre 200 (fun _ => 1/2)) 2 ∧
    seg_area_util_pre 200 (fun _ => 1/2) =
      200 - seg_obstaculos_pre 200 (fun _ => 1/2) ∧
    0 < seg_obstaculos_pre 200 (fun _ => 1/2) ∧
    seg_area_util_pre 200 (fun _ => 1/2) < 200 ∧
    (segment_surfaces 200 (fun _ => 1/2)).area_util_m2 ≤ pyRound 200 2 :=
  C7_segmentation_invariant_amended 200 (fun _ => 1/2) (by norm_num)
    (fun _ => ⟨by norm_num, by norm_num⟩)

/-- C8: the reported budget total is the 2-decimal rounding of the exact
sum of the eight line items (substrate, drainage, membrane, root barrier,
geotextile, plants, installation, irrigation), and it differs from the
sum of the eight individually rounded line items by at most 9 half-cents
(0.045 €) of accumulated rounding, i.e. agreement holds to the cent up to
rounding of the last decimal. -/
theorem C8_budget_total_consistency (area : ℚ) (costes : List ℚ) :
    (calculate_budget area costes true).coste_total_inicial_eur =
      pyRound (budget_total_pre area costes true) 2 ∧
    budget_total_pre area costes true =
      area * 45 + area * 25 + area * 15 + area * 8 + area * 5 +
        costes.sum + area * 20 + budget_riego_pre area true ∧
    |(calculate_budget area costes true).coste_total_inicial_eur -
      ((calculate_budget area costes true).sustrato_eur +
       (calculate_budget area costes true).drenaje_eur +
       (calculate_budget area costes true).membrana_impermeable_eur +
       (calculate_budget area costes true).lamina_antiraices_eur +
       (calculate_budget area costes true).geotextil_eur +
       (calculate_budget area costes true).plantas_eur +
       (calculate_budget area costes true).instalacion_eur +
       (calculate_budget area costes true).riego_eur)| ≤ 9/200 := by
  refine ⟨rfl, rfl, ?_⟩
  have f0 : (calculate_budget area costes true).coste_total_inicial_eur =
      pyRound (budget_total_pre area costes true) 2 := rfl
  have f1 : (calculate_budget area costes true).sustrato_eur = pyRound (area * 45) 2 := rfl
  have f2 : (calculate_budget area costes true).drenaje_eur = pyRound (area * 25) 2 := rfl
  have f3 : (calculate_budget area costes true).membrana_impermeable_eur =
      pyRound (area * 15) 2 := rfl
  have f4 : (calculate_budget area costes true).lamina_antiraices_eur =
      pyRound (area * 8) 2 := rfl
  have f5 : (calculate_budget area costes true).geotextil_eur = pyRound (area * 5) 2 := rfl
  have f6 : (calculate_budget area costes true).plantas_eur = pyRound costes.sum 2 := rfl
  have f7 : (calculate_budget area costes true).instalacion_eur = pyRound (area * 20) 2 := rfl
  have f8 : (calculate_budget area costes true).riego_eur =
      pyRound (budget_riego_pre area true) 2 := rfl
  rw [f0, f1, f2, f3, f4, f5, f6, f7, f8]
  have e0 := abs_pyRound_sub_le (budget_total_pre area costes true) 2
  have e1 := abs_pyRound_sub_le (area * 45) 2
  have e2 := abs_pyRound_sub_le (area * 25) 2
  have e3 := abs_pyRound_sub_le (area * 15) 2
  have e4 := abs_pyRound_sub_le (area * 8) 2
  have e5 := abs_pyRound_sub_le (area * 5) 2
  have e6 := abs_pyRound_sub_le costes.sum 2
  have e7 := abs_pyRound_sub_le (area * 20) 2
  have e8 := abs_pyRound_sub_le (budget_riego_pre area true) 2
  have hT : budget_total_pre area costes true =
      area * 45 + area * 25 + area * 15 + area * 8 + area * 5 +
        costes.sum + area * 20 + budget_riego_pre area true := rfl
  norm_num [abs_le] at e0 e1 e2 e3 e4 e5 e6 e7 e8 ⊢
  constructor
  · linarith [hT, e0.1, e0.2, e1.1, e1.2, e2.1, e2.2, e3.1, e3.2, e4.1, e4.2,
      e5.1, e5.2, e6.1, e6.2, e7.1, e7.2, e8.1, e8.2]
  · linarith [hT, e0.1, e0.2, e1.1, e1.2, e2.1, e2.2, e3.1, e3.2, e4.1, e4.2,
      e5.1, e5.2, e6.1, e6.2, e7.1, e7.2, e8.1, e8.2]

/-- C5: when the site characteristics specify an available substrate
depth and an admissible structural load, every recommended species
respects both: its minimum substrate depth is at most the available
depth and its maximum load is at most the admissible load. -/
theorem C5_recommended_species_respect_constraints
    (tipo_especializacion prioridad : String) (max_especies : ℕ)
    (caracteristicas : Caracteristicas) (d carga : ℚ)
    (hdep : caracteristicas.profundidad_sustrato_cm = some d)
    (hcar : caracteristicas.carga_admisible_kg_m2 = some carga) :
    ∀ p ∈ recommend_species_by_context tipo_especializacion caracteristicas
        prioridad max_especies,
      p.1.restricciones.profundidad_minima_cm ≤ d ∧
      p.1.restricciones.peso_max_kg_m2 ≤ carga := by
  intro p hp
  have hp1 : p ∈ (ESPECIES_DATABASE.filter
      (recommenderKeeps (recommenderContextKey tipo_especializacion caracteristicas)
        caracteristicas)).map
      (fun e => (e, calculate_suitability_score e caracteristicas prioridad)) := by
    have := List.mem_of_mem_take hp
    exact (List.perm_insertionSort _ _).mem_iff.mp this
  obtain ⟨e, he, rfl⟩ := List.mem_map.mp hp1
  have hkeep := (List.mem_filter.mp he).2
  unfold recommenderKeeps at hkeep
  simp only [Bool.and_eq_true, decide_eq_true_eq] at hkeep
  obtain ⟨⟨⟨-, hprof⟩, hload⟩, -⟩ := hkeep
  rw [hdep] at hprof
  rw [hcar] at hload
  exact ⟨hprof, hload⟩

/-- C5 witness: a concrete rooftop site with 10 cm of substrate and
20 kg/m² admissible load; Sedum blanco is the top recommendation and
satisfies both constraints. -/
theorem C5_recommended_species_respect_constraints_witness :
    (recommend_species_by_context "tejado"
        { profundidad_sustrato_cm := some 10, carga_admisible_kg_m2 := some 20
        , exposicion_solar := some "pleno_sol" } "economia" 10).length = 4 ∧
    ∀ p ∈ recommend_species_by_context "tejado"
        { profundidad_sustrato_cm := some 10, carga_admisible_kg_m2 := some 20
        , exposicion_solar := some "pleno_sol" } "economia" 10,
      p.1.restricciones.profundidad_minima_cm ≤ 10 ∧
      p.1.restricciones.peso_max_kg_m2 ≤ 20 := by
  constructor
  · unfold recommend_species_by_context
    rw [List.length_take, List.length_insertionSort, List.length_map]
    have hps : decide ("pleno_sol" = "sombra") = false := by decide
    norm_num [recommenderContextKey, recommenderKeeps, contextoValido,
      ESPECIES_DATABASE, sedumBlancoDB, tomilloDB, siemprevivaDB,
      romeroDB, lavandaDB, hiedraDB, encinaDB, santolinaDB, festucaDB,
      List.filter, hps]
  · exact C5_recommended_species_respect_constraints "tejado" "economia" 10
      { profundidad_sustrato_cm := some 10, carga_admisible_kg_m2 := some 20
      , exposicion_solar := some "pleno_sol" } 10 20 rfl rfl

/-- Any haversine call whose `a`-value equals 1/2 returns a quarter
circumference, `6371000 · π/2`. -/
theorem haversine_eval_half (lat1 lon1 lat2 lon2 : ℝ)
    (h : Real.sin (radians (lat2 - lat1) / 2) ^ 2 +
      Real.cos (radians lat1) * Real.cos (radians lat2) *
        Real.sin (radians (lon2 - lon1) / 2) ^ 2 = 1/2) :
    haversine_distance lat1 lon1 lat2 lon2 = 6371000 * (Real.pi / 2) := by
  simp only [haversine_distance]
  rw [h]
  rw [show (1:ℝ) - 1/2 = 1/2 by norm_num]
  have hpos : 0 < Real.sqrt (1/2) := Real.sqrt_pos.mpr (by norm_num)
  have hat : atan2 (Real.sqrt (1/2)) (Real.sqrt (1/2)) = Real.pi / 4 := by
    unfold atan2
    rw [if_pos hpos, div_self (ne_of_gt hpos)]
    exact Real.arctan_one
  rw [hat]
  ring

/-- C3 counterexample: the 2-point "polygon" [(0°E 0°N), (0°E 90°N)] has
fewer than 3 vertices, yet its computed perimeter is the round trip
equator-to-pole, `6371000·π ≠ 0` — the `< 2` guard in
`calculate_perimeter` does not cover the 2-point case the claim asserts
is zero. -/
theorem C3_counterexample :
    ([((0:ℝ), 0), (0, 90)] : List (ℝ × ℝ)).length < 3 ∧
    calculate_perimeter [((0:ℝ), 0), (0, 90)] ≠ 0 := by
  have hsq : (Real.sqrt 2 / 2) ^ 2 = 1/2 := by
    rw [div_pow, Real.sq_sqrt (by norm_num : (0:ℝ) ≤ 2)]
    norm_num
  have h1 : haversine_distance 0 0 90 0 = 6371000 * (Real.pi / 2) := by
    apply haversine_eval_half
    have e1 : radians ((90:ℝ) - 0) / 2 = Real.pi / 4 := by unfold radians; ring
    have e2 : radians ((0:ℝ) - 0) / 2 = 0 := by unfold radians; ring
    have e3 : radians (0:ℝ) = 0 := by unfold radians; ring
    have e4 : radians (90:ℝ) = Real.pi / 2 := by unfold radians; ring
    rw [e1, e2, e3, e4, Real.sin_pi_div_four, Real.cos_pi_div_two, Real.sin_zero, hsq]
    ring
  have h2 : haversine_distance 90 0 0 0 = 6371000 * (Real.pi / 2) := by
    apply haversine_eval_half
    have e1 : radians ((0:ℝ) - 90) / 2 = -(Real.pi / 4) := by unfold radians; ring
    have e2 : radians ((0:ℝ) - 0) / 2 = 0 := by unfold radians; ring
    have e3 : radians (0:ℝ) = 0 := by unfold radians; ring
    have e4 : radians (90:ℝ) = Real.pi / 2 := by unfold radians; ring
    rw [e1, e2, e3, e4, Real.sin_neg, Real.sin_pi_div_four, Real.cos_pi_div_two,
      Real.sin_zero]
    rw [show (-(Real.sqrt 2 / 2)) ^ 2 = (Real.sqrt 2 / 2) ^ 2 by ring, hsq]
    ring
  constructor
  · norm_num
  · have hper : calculate_perimeter [((0:ℝ), 0), (0, 90)] =
        haversine_distance 0 0 90 0 + haversine_distance 90 0 0 0 := by
      simp [calculate_perimeter, List.range_succ]
    rw [hper, h1, h2]
    have hpi := Real.pi_pos
    positivity

/-- C3 (amended): area and perimeter are always nonnegative (in
particular for ≥3 vertices); with fewer than 3 vertices the area is 0,
but the perimeter is 0 only for fewer than 2 vertices — an exactly-2-point
list yields the round-trip haversine distance between the two points. -/
theorem C3_geometry_amended (coordinates : List (ℝ × ℝ)) :
    (0 ≤ calculate_area_haversine coordinates ∧
      0 ≤ calculate_perimeter coordinates) ∧
    (coordinates.length < 3 → calculate_area_haversine coordinates = 0) ∧
    (coordinates.length < 2 → calculate_perimeter coordinates = 0) ∧
    (∀ p q : ℝ × ℝ, coordinates = [p, q] →
      calculate_perimeter coordinates =
        haversine_distance p.2 p.1 q.2 q.1 + haversine_distance q.2 q.1 p.2 p.1) := by
  refine ⟨⟨calculate_area_haversine_nonneg _, calculate_perimeter_nonneg _⟩, ?_, ?_, ?_⟩
  · intro h
    unfold calculate_area_haversine
    rw [if_pos h]
  · intro h
    unfold calculate_perimeter
    rw [if_pos h]
  · rintro p q rfl
    simp [calculate_perimeter, List.range_succ]

/-- C3 witness: the amended statement instantiated at a 1-point list and
at the concrete 2-point list of the counterexample. -/
theorem C3_geometry_amended_witness :
    (0 ≤ calculate_area_haversine [((1:ℝ), 1)] ∧
      0 ≤ calculate_perimeter [((1:ℝ), 1)]) ∧
    calculate_area_haversine [((1:ℝ), 1)] = 0 ∧
    calculate_perimeter [((1:ℝ), 1)] = 0 ∧
    calculate_perimeter [((0:ℝ), 0), (0, 90)] =
      haversine_distance 0 0 90 0 + haversine_distance 90 0 0 0 :=
  ⟨(C3_geometry_amended [((1:ℝ), 1)]).1,
   (C3_geometry_amended [((1:ℝ), 1)]).2.1 (by norm_num),
   (C3_geometry_amended [((1:ℝ), 1)]).2.2.1 (by norm_num),
   (C3_geometry_amended [((0:ℝ), 0), (0, 90)]).2.2.2 (0, 0) (0, 90) rfl⟩

/-! ## Degenerate-polygon behaviour of the pipeline (claim C1) -/

theorem pyInt_zero : pyInt 0 = 0 := by norm_num [pyInt]

/-- With zero area every segmented surface is zero. -/
theorem segment_surfaces_zero (draw : ℕ → ℚ) :
    segment_surfaces 0 draw =
      { asfalto_m2 := 0, grava_m2 := 0, vegetacion_previa_m2 := 0
      , obstaculos_m2 := 0, area_util_m2 := 0, area_util_pct := 0 } := by
  simp [segment_surfaces, seg_obstaculos_pre, seg_area_util_pre, pyRound_zero]

/-- With zero usable area every plant quantity and plant cost is zero. -/
theorem calculate_plant_quantities_zero (l : List RecEspecie) :
    ∀ p ∈ calculate_plant_quantities 0 l,
      p.cantidad_estimada = 0 ∧ p.coste_total_eur = 0 := by
  intro p hp
  unfold calculate_plant_quantities at hp
  obtain ⟨r, -, rfl⟩ := List.mem_map.mp hp
  refine ⟨by simp [pyInt_zero], ?_⟩
  simp [pyInt_zero, pyRound_zero]

theorem plant_costs_sum_zero (l : List RecEspecie) :
    ((calculate_plant_quantities 0 l).map (fun p => p.coste_total_eur)).sum = 0 := by
  apply List.sum_eq_zero
  intro x hx
  simp only [List.mem_map] at hx
  obtain ⟨p, hp, rfl⟩ := hx
  exact (calculate_plant_quantities_zero l p hp).2

/-- With zero area and zero plant costs the budget total is the fixed
irrigation base: controller 250 € + one humidity sensor 80 € = 330 €. -/
theorem budget_at_zero (costs : List ℚ) (h : costs.sum = 0) :
    (calculate_budget 0 costs true).coste_total_inicial_eur = 330 := by
  have ht : budget_total_pre 0 costs true = 330 := by
    unfold budget_total_pre budget_riego_pre
    rw [h]
    norm_num [pyInt_zero]
  show pyRound (budget_total_pre 0 costs true) 2 = 330
  rw [ht]
  norm_num [pyRound, rhe, Int.fract, Int.even_iff]

/-- The green score of a zero-area site: all components except solar
exposure vanish, compliance fails and contributes its half credit 7.5. -/
theorem green_score_degenerate (incl nat_pct : ℚ) (horas : ℤ) (orient : String) :
    calculate_green_score
      (calculate_factor_verde 0 0 "extensiva" orient
        "cubierta_vegetal_extensiva").factor_verde
      horas 0 0
      (validate_requirements 0 incl
        (calculate_factor_verde 0 0 "extensiva" orient
          "cubierta_vegetal_extensiva").factor_verde
        nat_pct "extensiva").cumple_todos =
    pyRound (min ((horas : ℚ) / 2800 * 20) 20 + 7.5) 1 := by
  have hfv : (calculate_factor_verde 0 0 "extensiva" orient
      "cubierta_vegetal_extensiva").factor_verde = 0 := by
    simp [calculate_factor_verde, pyRound_zero]
  rw [hfv]
  have hcum : (validate_requirements 0 incl 0 nat_pct "extensiva").cumple_todos
      = false := by
    simp only [validate_requirements]
    apply decide_eq_false
    rintro ⟨h50, -⟩
    norm_num at h50
  rw [hcum]
  unfold calculate_green_score
  rw [show (0:ℚ) / 0.8 * 30 = 0 by norm_num, show (0:ℚ) / 100 * 15 = 0 by norm_num,
    show (0:ℚ) / 6 * 20 = 0 by norm_num]
  rw [min_eq_left (by norm_num : (0:ℚ) ≤ 30), min_eq_left (by norm_num : (0:ℚ) ≤ 20)]
  norm_num

/-- The value layer of the pipeline at a zero-area site: species list of
length 3 with zero quantities and costs, budget total 330 €, green score
`round₁(min(hours/2800·20, 20) + 7.5)`. -/
theorem value_generation_layer_degenerate :
    ∀ (geo : GeoData) (drawSeg drawSolar : ℕ → ℚ), geo.area_m2 = 0 →
      (value_generation_layer geo
        (computer_vision_layer geo drawSeg drawSolar)).area_m2 = 0 ∧
      (value_generation_layer geo
        (computer_vision_layer geo drawSeg drawSolar)).especies_recomendadas.length = 3 ∧
      (∀ p ∈ (value_generation_layer geo
          (computer_vision_layer geo drawSeg drawSolar)).especies_recomendadas,
        p.cantidad_estimada = 0 ∧ p.coste_total_eur = 0) ∧
      (value_generation_layer geo
        (computer_vision_layer geo drawSeg drawSolar)).presupuesto.coste_total_inicial_eur
        = 330 ∧
      (value_generation_layer geo
        (computer_vision_layer geo drawSeg drawSolar)).green_score =
        pyRound (min (((analyze_solar_exposure geo.center_lat geo.center_lon 0
          drawSolar).horas_sol_anuales : ℚ) / 2800 * 20) 20 + 7.5) 1 := by
  rintro ⟨a, per, incl, clat, clon, si⟩ drawSeg drawSolar hA
  obtain rfl : a = 0 := hA
  have hseg := segment_surfaces_zero drawSeg
  have h0 : (segment_surfaces 0 drawSeg).area_util_m2 = 0 := by rw [hseg]
  have hpct : (segment_surfaces 0 drawSeg).area_util_pct = 0 := by rw [hseg]
  refine ⟨?_, ?_, ?_, ?_, ?_⟩
  · show pyRound (0:ℚ) 2 = 0
    exact pyRound_zero 2
  · show (calculate_plant_quantities (segment_surfaces 0 drawSeg).area_util_m2
      (get_species_by_exposure
        (analyze_solar_exposure clat clon 0 drawSolar).clasificacion 3)).length = 3
    unfold calculate_plant_quantities
    rw [List.length_map]
    exact get_species_by_exposure_length _
  · show ∀ p ∈ calculate_plant_quantities (segment_surfaces 0 drawSeg).area_util_m2
      (get_species_by_exposure
        (analyze_solar_exposure clat clon 0 drawSolar).clasificacion 3),
      p.cantidad_estimada = 0 ∧ p.coste_total_eur = 0
    rw [h0]
    exact calculate_plant_quantities_zero _
  · show (calculate_budget (segment_surfaces 0 drawSeg).area_util_m2
      ((calculate_plant_quantities (segment_surfaces 0 drawSeg).area_util_m2
        (get_species_by_exposure
          (analyze_solar_exposure clat clon 0 drawSolar).clasificacion 3)).map
        (fun p => p.coste_total_eur)) true).coste_total_inicial_eur = 330
    rw [h0]
    exact budget_at_zero _ (plant_costs_sum_zero _)
  · show calculate_green_score
      (calculate_factor_verde 0 (segment_surfaces 0 drawSeg).area_util_m2 "extensiva"
        (get_orientation_from_solar_hours
          ((analyze_solar_exposure clat clon 0 drawSolar).horas_sol_anuales : ℚ))
        "cubierta_vegetal_extensiva").factor_verde
      (analyze_solar_exposure clat clon 0 drawSolar).horas_sol_anuales
      (segment_surfaces 0 drawSeg).area_util_pct
      (if (segment_surfaces 0 drawSeg).area_util_m2 > 0 then
        (calculate_ecosystem_benefits (segment_surfaces 0 drawSeg).area_util_m2
          "extensiva").co2_capturado_kg_anual /
          (segment_surfaces 0 drawSeg).area_util_m2
      else 0)
      (validate_requirements 0 incl
        (calculate_factor_verde 0 (segment_surfaces 0 drawSeg).area_util_m2 "extensiva"
          (get_orientation_from_solar_hours
            ((analyze_solar_exposure clat clon 0 drawSolar).horas_sol_anuales : ℚ))
          "cubierta_vegetal_extensiva").factor_verde
        (get_native_species_percentage
          (get_species_by_exposure
            (analyze_solar_exposure clat clon 0 drawSolar).clasificacion 3))
        "extensiva").cumple_todos =
      pyRound (min (((analyze_solar_exposure clat clon 0 drawSolar).horas_sol_anuales : ℚ)
        / 2800 * 20) 20 + 7.5) 1
    rw [h0, hpct, if_neg (lt_irrefl (0:ℚ))]
    exact green_score_degenerate incl _ _ _

/-- C1 (amended): a polygon with fewer than 3 points yields area 0 and
the pipeline raises nothing, but the downstream stages do not degrade to
an empty recommendation and a zero budget: the species list still has
exactly 3 entries (each with quantity 0 and plant cost 0), the budget
total is the fixed irrigation base cost 330 €, and the green score is
still a well-defined value, `round₁(min(hours/2800·20, 20) + 7.5)`. -/
theorem C1_degenerate_pipeline_amended :
    (∀ coordinates : List (ℝ × ℝ), coordinates.length < 3 →
      calculate_area_haversine coordinates = 0) ∧
    ∀ (geo : GeoData) (drawSeg drawSolar : ℕ → ℚ), geo.area_m2 = 0 →
      (value_generation_layer geo
        (computer_vision_layer geo drawSeg drawSolar)).area_m2 = 0 ∧
      (value_generation_layer geo
        (computer_vision_layer geo drawSeg drawSolar)).especies_recomendadas.length = 3 ∧
      (∀ p ∈ (value_generation_layer geo
          (computer_vision_layer geo drawSeg drawSolar)).especies_recomendadas,
        p.cantidad_estimada = 0 ∧ p.coste_total_eur = 0) ∧
      (value_generation_layer geo
        (computer_vision_layer geo drawSeg drawSolar)).presupuesto.coste_total_inicial_eur
        = 330 ∧
      (value_generation_layer geo
        (computer_vision_layer geo drawSeg drawSolar)).green_score =
        pyRound (min (((analyze_solar_exposure geo.center_lat geo.center_lon 0
          drawSolar).horas_sol_anuales : ℚ) / 2800 * 20) 20 + 7.5) 1 :=
  ⟨fun coords h => by unfold calculate_area_haversine; rw [if_pos h],
   value_generation_layer_degenerate⟩

/-- C1 counterexample: the degenerate 2-point polygon [(0,0),(1,1)] has
area 0 and centroid (0.5, 0.5), yet the pipeline's value layer (run here
with mid-range draws; the asserted fields do not depend on the draws, the
perimeter or the slope) still recommends a non-empty species list and
returns a non-zero budget total — not the empty list and zero budget the
claim asserts. -/
theorem C1_counterexample :
    ([((0:ℝ), 0), (1, 1)] : List (ℝ × ℝ)).length < 3 ∧
    calculate_area_haversine [((0:ℝ), 0), (1, 1)] = 0 ∧
    get_center_coordinates [((0:ℚ), 0), (1, 1)] = (1/2, 1/2) ∧
    check_subsidy_eligibility (1/2) (1/2) =
      { elegible := false, porcentaje := 0, zona := "Fuera de zonas prioritarias"
      , programa := "No aplica", requisitos := [] } ∧
    (value_generation_layer
      { area_m2 := 0, perimetro_m := 0, inclinacion_grados := 0
      , center_lat := 1/2, center_lon := 1/2
      , subsidy_info :=
        { elegible := false, porcentaje := 0, zona := "Fuera de zonas prioritarias"
        , programa := "No aplica", requisitos := [] } }
      (computer_vision_layer
        { area_m2 := 0, perimetro_m := 0, inclinacion_grados := 0
        , center_lat := 1/2, center_lon := 1/2
        , subsidy_info :=
        { elegible := false, porcentaje := 0, zona := "Fuera de zonas prioritarias"
        , programa := "No aplica", requisitos := [] } }
        (fun _ => 1/2) (fun _ => 1/2))).especies_recomendadas.length ≠ 0 ∧
    (value_generation_layer
      { area_m2 := 0, perimetro_m := 0, inclinacion_grados := 0
      , center_lat := 1/2, center_lon := 1/2
      , subsidy_info :=
        { elegible := false, porcentaje := 0, zona := "Fuera de zonas prioritarias"
        , programa := "No aplica", requisitos := [] } }
      (computer_vision_layer
        { area_m2 := 0, perimetro_m := 0, inclinacion_grados := 0
        , center_lat := 1/2, center_lon := 1/2
        , subsidy_info :=
        { elegible := false, porcentaje := 0, zona := "Fuera de zonas prioritarias"
        , programa := "No aplica", requisitos := [] } }
        (fun _ => 1/2) (fun _ => 1/2))).presupuesto.coste_total_inicial_eur ≠ 0 := by
  have hd := value_generation_layer_degenerate
    { area_m2 := 0, perimetro_m := 0, inclinacion_grados := 0
    , center_lat := 1/2, center_lon := 1/2
    , subsidy_info :=
      { elegible := false, porcentaje := 0, zona := "Fuera de zonas prioritarias"
      , programa := "No aplica", requisitos := [] } }
    (fun _ => 1/2) (fun _ => 1/2) rfl
  refine ⟨by norm_num, by norm_num [calculate_area_haversine], ?_, ?_, ?_, ?_⟩
  · norm_num [get_center_coordinates]
  · norm_num [check_subsidy_eligibility, ZONAS_SUBVENCION, List.find?, point_in_bounds]
  · rw [hd.2.1]
    norm_num
  · rw [hd.2.2.2.1]
    norm_num

/-- C1 witness: the amended statement at the concrete degenerate polygon
[(0,0),(1,1)] with mid-range draws. -/
theorem C1_degenerate_pipeline_amended_witness :
    calculate_area_haversine [((0:ℝ), 0), (1, 1)] = 0 ∧
    (value_generation_layer
      { area_m2 := 0, perimetro_m := 0, inclinacion_grados := 0
      , center_lat := 1/2, center_lon := 1/2
      , subsidy_info :=
        { elegible := false, porcentaje := 0, zona := "Fuera de zonas prioritarias"
        , programa := "No aplica", requisitos := [] } }
      (computer_vision_layer
        { area_m2 := 0, perimetro_m := 0, inclinacion_grados := 0
        , center_lat := 1/2, center_lon := 1/2
        , subsidy_info :=
        { elegible := false, porcentaje := 0, zona := "Fuera de zonas prioritarias"
        , programa := "No aplica", requisitos := [] } }
        (fun _ => 1/3) (fun _ => 1/3))).especies_recomendadas.length = 3 ∧
    (value_generation_layer
      { area_m2 := 0, perimetro_m := 0, inclinacion_grados := 0
      , center_lat := 1/2, center_lon := 1/2
      , subsidy_info :=
        { elegible := false, porcentaje := 0, zona := "Fuera de zonas prioritarias"
        , programa := "No aplica", requisitos := [] } }
      (computer_vision_layer
        { area_m2 := 0, perimetro_m := 0, inclinacion_grados := 0
        , center_lat := 1/2, center_lon := 1/2
        , subsidy_info :=
        { elegible := false, porcentaje := 0, zona := "Fuera de zonas prioritarias"
        , programa := "No aplica", requisitos := [] } }
        (fun _ => 1/3) (fun _ => 1/3))).presupuesto.coste_total_inicial_eur = 330 :=
  ⟨C1_degenerate_pipeline_amended.1 [((0:ℝ), 0), (1, 1)] (by norm_num),
   (C1_degenerate_pipeline_amended.2
     { area_m2 := 0, perimetro_m := 0, inclinacion_grados := 0
     , center_lat := 1/2, center_lon := 1/2
     , subsidy_info :=
        { elegible := false, porcentaje := 0, zona := "Fuera de zonas prioritarias"
        , programa := "No aplica", requisitos := [] } }
     (fun _ => 1/3) (fun _ => 1/3) rfl).2.1,
   (C1_degenerate_pipeline_amended.2
     { area_m2 := 0, perimetro_m := 0, inclinacion_grados := 0
     , center_lat := 1/2, center_lon := 1/2
     , subsidy_info :=
        { elegible := false, porcentaje := 0, zona := "Fuera de zonas prioritarias"
        , programa := "No aplica", requisitos := [] } }
     (fun _ => 1/3) (fun _ => 1/3) rfl).2.2.2.1⟩
